import Mathlib

/-!
# EX-IOExpander: the I2C command dispatcher and response producer

A shallow embedding of `src/i2c_functions.cpp`: `receiveEvent` (the command
dispatcher, run when the CommandStation writes a frame) and `requestEvent`
(the response producer, run when the CommandStation polls).

Conventions of the embedding.

* Bytes (`byte`, `uint8_t`) are `Nat`; every store into a byte is written
  with an explicit `% 256`, and the 16-bit `firstVpin` with `% 65536`.
* The globals of the translation unit are the fields of `State`; what the
  headers fix for the board (opcode values, pin map, sizes) is a `Config`.
* An array access outside its array is undefined behaviour in the source;
  the embedding returns `Except.error Fault.outOfBounds` there.  A receive
  loop that cannot terminate returns `Except.error Fault.nonTermination`.
* Line 33 declares `byte responseBuffer[0]`, an array of no element.  Every
  store `responseBuffer[0] = status` and every `Wire.write(responseBuffer, 1)`
  goes through the same bound check as the other arrays, against that
  declaration, and so is out of bounds.  In each of the four cases that store
  a status the store is the last statement of every path; the case functions
  return the state and calls before that statement together with the status
  it stores, `dispatch` collects them, and `receiveEvent` performs the store.
* The calls to the hardware, to the serial port and to the functions of the
  other translation units are returned as a list of `Call`, in call order.
-/

namespace EXIOExpander

/-- Ways in which a run of the source leaves defined, terminating behaviour. -/
inductive Fault where
  | outOfBounds
  | nonTermination
  deriving DecidableEq, Repr

/-- The second argument of Arduino's `pinMode`. -/
inductive PinModeArg where
  | INPUT
  | INPUT_PULLUP
  | OUTPUT
  deriving DecidableEq, Repr

/-- One call that leaves the translation unit, with its arguments. -/
inductive Call where
  | serialPrint (text : String)
  | serialPrintNum (n : Nat)
  | pinMode (physicalPin : Nat) (mode : PinModeArg)
  | digitalWrite (physicalPin : Nat) (state : Bool)
  | initialisePins
  | displayVpinMap
  | enableAnalogue (pin : Nat)
  | writeAnalogue (pin value profile duration : Nat)
  deriving DecidableEq, Repr

/-- One row of `pinMap`: the physical pin and its capability bits. -/
structure PinDefinition where
  physicalPin : Nat
  capability : Nat
  deriving DecidableEq, Repr

/-- Modelled from the spec: the declaration of the elements of `exioPins`
(in `globals.h`) is not among the sources.  The spec gives a pin entry the
fields `enabled : bool`, `mode`, `direction : enum{Input, Output}` and
`pullup : bool`; the source names them `enable`, `mode`, `direction`,
`pullup`, writes `direction = 1` for an input and `direction = 0` for an
output, and compares `mode` with the constant `MODE_DIGITAL`.  So
`direction = true` is the source's `1` (input) and `mode` is a number. -/
structure PinEntry where
  enable : Bool
  mode : Nat
  direction : Bool
  pullup : Bool
  deriving DecidableEq, Repr

/-- The three tables that the functions of `pin_io_functions.cpp` share with
this translation unit. -/
structure PinTables where
  exioPins : List PinEntry
  digitalPinStates : List Nat
  analoguePinStates : List Nat
  deriving DecidableEq, Repr

/-- The mutable globals read or written by `receiveEvent` and `requestEvent`.
The array `responseBuffer` is declared with no element (line 33), so it has no
content and no field here. -/
structure State where
  tables : PinTables
  setupComplete : Bool
  firstVpin : Nat
  outboundFlag : Nat
  commandBuffer : List Nat
  deriving DecidableEq, Repr

/-- What the headers and the board configuration fix, none of it among the
sources: the opcode and status values, the bit positions of the capability
bits, `MODE_DIGITAL`, the pin map and the sizes.  `numDigitalPins` and
`numAnaloguePins` are globals of this file that neither function assigns.
The last three fields are the functions of `pin_io_functions.cpp` called by
the dispatcher, as functions on the tables they share with it. -/
structure Config where
  EXIOINIT : Nat
  EXIOINITA : Nat
  EXIODPUP : Nat
  EXIORDAN : Nat
  EXIOWRD : Nat
  EXIORDD : Nat
  EXIOVER : Nat
  EXIOENAN : Nat
  EXIOWRAN : Nat
  EXIORDY : Nat
  EXIOERR : Nat
  EXIOPINS : Nat
  MODE_DIGITAL : Nat
  DI : Nat
  DIGITAL_OUTPUT : Nat
  numPins : Nat
  numDigitalPins : Nat
  numAnaloguePins : Nat
  digitalPinBytes : Nat
  analoguePinBytes : Nat
  pinMap : List PinDefinition
  analoguePinMap : List Nat
  versionBuffer : List Nat
  diag : Bool
  initialisePins : PinTables → PinTables
  enableAnalogue : PinTables → Nat → Bool × PinTables
  writeAnalogue : PinTables → Nat → Nat → Nat → Nat → Bool × PinTables

/-- Arduino's `bitRead(value, bit)`: `((value) >> (bit)) & 0x01`. -/
def bitRead (value bit : Nat) : Nat := (value >>> bit) &&& 1

/-- Arduino's `bitSet(value, bit)` on a byte: `value |= (1UL << bit)`. -/
def bitSet (value bit : Nat) : Nat := (value ||| (1 <<< bit)) % 256

/-- Arduino's `bitClear(value, bit)` on a byte: `value &= ~(1UL << bit)`,
with the 32-bit `unsigned long` complement. -/
def bitClear (value bit : Nat) : Nat :=
  (value &&& (0xFFFFFFFF ^^^ ((1 <<< bit) % 4294967296))) % 256

/-- The value of `(hi << 8) + lo` stored into a `uint16_t`: the sum is
reduced modulo 2^16 by the store. -/
def word16 (hi lo : Nat) : Nat := (hi * 256 + lo) % 65536

/-- The bytes sent by `Wire.write(buf, n)`: the first `n` bytes of `buf`. -/
def wireWrite (buf : List Nat) (n : Nat) : Except Fault (List Nat) :=
  if n ≤ buf.length then .ok (buf.take n) else .error .outOfBounds

/-- The array `responseBuffer` as line 33 declares it, `byte responseBuffer[0]`:
an array of no element. -/
def responseBufferDeclared : List Nat := []

/-- A store `buf[i] = v` of a byte into an array, with the bound of the array
checked. -/
def arrayStore (buf : List Nat) (i v : Nat) : Except Fault (List Nat) :=
  if i < buf.length then .ok (buf.set i (v % 256)) else .error .outOfBounds

/-- The diagnostic printed on a rejected claim: three serial calls. -/
def pinError (head : String) (physicalPin : Nat) (tail : String) : List Call :=
  [.serialPrint head, .serialPrintNum physicalPin, .serialPrint tail]

/-- The `case EXIOINIT` branch of `receiveEvent` (lines 48-71). -/
def caseEXIOINIT (c : Config) (s : State) (buffer : List Nat) :
    Except Fault (State × List Call) :=
  if buffer.length = 4 then
    let tables := c.initialisePins s.tables
    let numReceivedPins := buffer.getD 1 0
    let firstVpin := word16 (buffer.getD 3 0) (buffer.getD 2 0)
    if numReceivedPins = c.numPins then
      .ok ({ s with tables := tables, firstVpin := firstVpin, setupComplete := true,
                    outboundFlag := c.EXIOINIT },
           [.initialisePins,
            .serialPrint "Received correct pin count: ", .serialPrintNum numReceivedPins,
            .serialPrint ", starting at Vpin: ", .serialPrintNum firstVpin,
            .displayVpinMap])
    else
      .ok ({ s with tables := tables, firstVpin := firstVpin, setupComplete := false,
                    outboundFlag := c.EXIOINIT },
           [.initialisePins,
            .serialPrint "ERROR: Invalid pin count sent by device driver!: ",
            .serialPrintNum numReceivedPins])
  else
    .ok (s, if c.diag then [.serialPrint "EXIOINIT received with incorrect data"] else [])

/-- The `case EXIOINITA` branch of `receiveEvent` (lines 72-80). -/
def caseEXIOINITA (c : Config) (s : State) (buffer : List Nat) :
    Except Fault (State × List Call) :=
  if buffer.length = 1 then
    .ok ({ s with outboundFlag := c.EXIOINITA }, [])
  else
    .ok (s, if c.diag then [.serialPrint "EXIOINITA received with incorrect data"] else [])

/-- The `case EXIODPUP` branch of `receiveEvent` (lines 82-124) up to its last
statement.  Every path of the branch ends with a store
`responseBuffer[0] = status` (lines 91, 98, 111, 116, 122): the result is the
state and the calls before that store, and the status it stores. -/
def caseEXIODPUP (c : Config) (s0 : State) (buffer : List Nat) :
    Except Fault (State × List Call × Nat) :=
  let s := { s0 with outboundFlag := c.EXIODPUP }
  if buffer.length = 3 then
    let pin := buffer.getD 1 0
    let pullup := buffer.getD 2 0 != 0
    match c.pinMap[pin]? with
    | none => .error .outOfBounds
    | some pm =>
      if bitRead pm.capability c.DI = 0 then
        .ok (s, pinError "ERROR! pin " pm.physicalPin " not capable of digital input",
             c.EXIOERR)
      else
        match s.tables.exioPins[pin]? with
        | none => .error .outOfBounds
        | some e =>
          if e.enable && e.mode != c.MODE_DIGITAL && !e.direction then
            .ok (s, pinError "ERROR! pin " pm.physicalPin
                   " already in use, cannot use as a digital input pin",
                 c.EXIOERR)
          else if !e.enable || (e.enable && e.direction == true) then
            let e1 : PinEntry :=
              { enable := true, mode := c.MODE_DIGITAL, direction := true, pullup := pullup }
            .ok ({ s with
                    tables := { s.tables with exioPins := s.tables.exioPins.set pin e1 } },
                 [.pinMode pm.physicalPin (if pullup then .INPUT_PULLUP else .INPUT)],
                 c.EXIORDY)
          else
            .ok (s, pinError "ERROR! pin " pm.physicalPin
                   " already in use, cannot use as a digital input pin",
                 c.EXIOERR)
  else
    .ok (s, (if c.diag then [.serialPrint "EXIODPUP received with incorrect number of bytes"]
             else []),
         c.EXIOERR)

/-- The `case EXIORDAN` branch of `receiveEvent` (lines 125-129). -/
def caseEXIORDAN (c : Config) (s : State) (buffer : List Nat) :
    Except Fault (State × List Call) :=
  if buffer.length = 1 then .ok ({ s with outboundFlag := c.EXIORDAN }, []) else .ok (s, [])

/-- The `case EXIOWRD` branch of `receiveEvent` (lines 130-172) up to its last
statement.  Every path of the branch ends with a store
`responseBuffer[0] = status` (lines 142, 156, 158, 164, 170): the result is
the state and the calls before that store, and the status it stores. -/
def caseEXIOWRD (c : Config) (s0 : State) (buffer : List Nat) :
    Except Fault (State × List Call × Nat) :=
  let s := { s0 with outboundFlag := c.EXIOWRD }
  if buffer.length = 3 then
    let pin := buffer.getD 1 0
    let state := buffer.getD 2 0 != 0
    let pinByte := (pin / 8) % 256
    let pinBit := (pin - pinByte * 8) % 256
    match c.pinMap[pin]? with
    | none => .error .outOfBounds
    | some pm =>
      if bitRead pm.capability c.DIGITAL_OUTPUT ≠ 0 then
        match s.tables.exioPins[pin]? with
        | none => .error .outOfBounds
        | some e =>
          if e.enable && (e.direction || e.mode != c.MODE_DIGITAL) then
            .ok (s, pinError "ERROR! pin " pm.physicalPin
                   " already in use, cannot use as a digital output pin",
                 c.EXIOERR)
          else if !e.enable || (e.enable && e.direction == false) then
            let e1 : PinEntry := { e with enable := true, mode := c.MODE_DIGITAL,
                                          direction := false }
            match s.tables.digitalPinStates[pinByte]? with
            | none => .error .outOfBounds
            | some b =>
              let b1 := if state then bitSet b pinBit else bitClear b pinBit
              .ok ({ s with
                      tables := { s.tables with
                        exioPins := s.tables.exioPins.set pin e1,
                        digitalPinStates := s.tables.digitalPinStates.set pinByte b1 } },
                   [.pinMode pm.physicalPin .OUTPUT, .digitalWrite pm.physicalPin state],
                   c.EXIORDY)
          else
            .ok (s, [], c.EXIOERR)
      else
        .ok (s, pinError "ERROR! Pin " pm.physicalPin " not capable of digital output",
             c.EXIOERR)
  else
    .ok (s, (if c.diag then [.serialPrint "EXIOWRD received with incorrect number of bytes"]
             else []),
         c.EXIOERR)

/-- The `case EXIORDD` branch of `receiveEvent` (lines 173-177). -/
def caseEXIORDD (c : Config) (s : State) (buffer : List Nat) :
    Except Fault (State × List Call) :=
  if buffer.length = 1 then .ok ({ s with outboundFlag := c.EXIORDD }, []) else .ok (s, [])

/-- The `case EXIOVER` branch of `receiveEvent` (lines 178-182). -/
def caseEXIOVER (c : Config) (s : State) (buffer : List Nat) :
    Except Fault (State × List Call) :=
  if buffer.length = 1 then .ok ({ s with outboundFlag := c.EXIOVER }, []) else .ok (s, [])

/-- The `case EXIOENAN` branch of `receiveEvent` (lines 183-196) up to its last
statement.  Every path of the branch ends with a store
`responseBuffer[0] = status` (lines 189, 191, 194): the result is the state
and the calls before that store, and the status it stores. -/
def caseEXIOENAN (c : Config) (s0 : State) (buffer : List Nat) :
    Except Fault (State × List Call × Nat) :=
  let s := { s0 with outboundFlag := c.EXIOENAN }
  if buffer.length = 2 then
    let pin := buffer.getD 1 0
    let r := c.enableAnalogue s.tables pin
    .ok ({ s with tables := r.2 }, [.enableAnalogue pin],
         if r.1 then c.EXIORDY else c.EXIOERR)
  else
    .ok (s, [], c.EXIOERR)

/-- The `case EXIOWRAN` branch of `receiveEvent` (lines 197-221) up to its last
statement.  Every path of the branch ends with a store
`responseBuffer[0] = status` (lines 206, 208, 214): the result is the state
and the calls before that store, and the status it stores. -/
def caseEXIOWRAN (c : Config) (s0 : State) (buffer : List Nat) :
    Except Fault (State × List Call × Nat) :=
  let s := { s0 with outboundFlag := c.EXIOWRAN }
  if buffer.length = 7 then
    let pin := buffer.getD 1 0
    let value := word16 (buffer.getD 3 0) (buffer.getD 2 0)
    let profile := buffer.getD 4 0
    let duration := word16 (buffer.getD 6 0) (buffer.getD 5 0)
    let r := c.writeAnalogue s.tables pin value profile duration
    .ok ({ s with tables := r.2 }, [.writeAnalogue pin value profile duration],
         if r.1 then c.EXIORDY else c.EXIOERR)
  else
    .ok (s, (if c.diag then [.serialPrint "EXIOWRD received with incorrect number of bytes"]
             else []),
         c.EXIOERR)

/-- The result of a case that stores no status. -/
def plain (r : State × List Call) : State × List Call × Option Nat := (r.1, r.2, none)

/-- The result of a case whose last statement stores a status. -/
def withStatus (r : State × List Call × Nat) : State × List Call × Option Nat :=
  (r.1, r.2.1, some r.2.2)

/-- The dispatcher `receiveEvent(numBytes)` (lines 38-225) up to the last
statement of the path taken: the state, the calls, and the status that the
last statement stores into `responseBuffer[0]`, when the path ends with such
a store.  `wire` holds the bytes that `Wire.read()` returns,
`numBytes = wire.length`.  The loop counter is a `uint8_t`, so with 256 bytes
or more it never reaches `numBytes`.  Each byte is stored into
`byte buffer[numBytes]`.  The case labels of a `switch` are distinct, so the
chain below takes the same branch as the `switch`. -/
def dispatch (c : Config) (s : State) (wire : List Nat) :
    Except Fault (State × List Call × Option Nat) :=
  if wire.length = 0 then .ok (s, [], none)
  else if 256 ≤ wire.length then .error .nonTermination
  else
    let buffer := wire.map (· % 256)
    let op := buffer.getD 0 0
    if op = c.EXIOINIT then (caseEXIOINIT c s buffer).map plain
    else if op = c.EXIOINITA then (caseEXIOINITA c s buffer).map plain
    else if op = c.EXIODPUP then (caseEXIODPUP c s buffer).map withStatus
    else if op = c.EXIORDAN then (caseEXIORDAN c s buffer).map plain
    else if op = c.EXIOWRD then (caseEXIOWRD c s buffer).map withStatus
    else if op = c.EXIORDD then (caseEXIORDD c s buffer).map plain
    else if op = c.EXIOVER then (caseEXIOVER c s buffer).map plain
    else if op = c.EXIOENAN then (caseEXIOENAN c s buffer).map withStatus
    else if op = c.EXIOWRAN then (caseEXIOWRAN c s buffer).map withStatus
    else .ok (s, [], none)

/-- The dispatcher `receiveEvent(numBytes)` (lines 38-225): `dispatch`, then
the store `responseBuffer[0] = status` where the path ends with one.  The
store is checked against the array as declared; the array has no element to
keep the stored byte. -/
def receiveEvent (c : Config) (s : State) (wire : List Nat) :
    Except Fault (State × List Call) :=
  match dispatch c s wire with
  | .error f => .error f
  | .ok (s1, calls, none) => .ok (s1, calls)
  | .ok (s1, calls, some status) =>
    match arrayStore responseBufferDeclared 0 status with
    | .error f => .error f
    | .ok _ => .ok (s1, calls)

/-- The producer `requestEvent()` (lines 230-268): the state after the poll and
the byte sequences handed to `Wire.write`, one per call. -/
def requestEvent (c : Config) (s : State) : Except Fault (State × List (List Nat)) :=
  let flag := s.outboundFlag
  if flag = c.EXIOINIT then
    let commandBuffer :=
      if s.setupComplete then
        [c.EXIOPINS % 256, c.numDigitalPins % 256, c.numAnaloguePins % 256]
      else [0, 0, 0]
    .ok ({ s with commandBuffer := commandBuffer }, [commandBuffer])
  else if flag = c.EXIOINITA then
    (wireWrite c.analoguePinMap c.numAnaloguePins).map fun bytes => (s, [bytes])
  else if flag = c.EXIORDAN then
    (wireWrite s.tables.analoguePinStates c.analoguePinBytes).map fun bytes => (s, [bytes])
  else if flag = c.EXIORDD then
    (wireWrite s.tables.digitalPinStates c.digitalPinBytes).map fun bytes => (s, [bytes])
  else if flag = c.EXIOVER then
    (wireWrite c.versionBuffer 3).map fun bytes => (s, [bytes])
  else if flag = c.EXIODPUP then
    (wireWrite responseBufferDeclared 1).map fun bytes => (s, [bytes])
  else if flag = c.EXIOENAN then
    (wireWrite responseBufferDeclared 1).map fun bytes => (s, [bytes])
  else if flag = c.EXIOWRAN then
    (wireWrite responseBufferDeclared 1).map fun bytes => (s, [bytes])
  else .ok (s, [])

/-- What the C types and the `switch` statements of the source guarantee of
a configuration: the nine case labels of `receiveEvent` are pairwise
distinct, and the opcodes, the status codes and the pin counts are bytes. -/
def Config.WellFormed (c : Config) : Prop :=
  [c.EXIOINIT, c.EXIOINITA, c.EXIODPUP, c.EXIORDAN, c.EXIOWRD, c.EXIORDD,
    c.EXIOVER, c.EXIOENAN, c.EXIOWRAN].Nodup ∧
  (∀ op ∈ [c.EXIOINIT, c.EXIOINITA, c.EXIODPUP, c.EXIORDAN, c.EXIOWRD, c.EXIORDD,
    c.EXIOVER, c.EXIOENAN, c.EXIOWRAN], op < 256) ∧
  c.EXIORDY < 256 ∧ c.EXIOERR < 256 ∧ c.EXIOPINS < 256 ∧
  c.numDigitalPins < 256 ∧ c.numAnaloguePins < 256

instance (c : Config) : Decidable c.WellFormed := by
  unfold Config.WellFormed; infer_instance

/-- Equality of two results of a run is decidable. -/
instance instDecidableEqExcept {ε α : Type} [DecidableEq ε] [DecidableEq α] :
    DecidableEq (Except ε α)
  | .ok a, .ok b =>
    if h : a = b then isTrue (by rw [h]) else isFalse (by intro e; cases e; exact h rfl)
  | .error a, .error b =>
    if h : a = b then isTrue (by rw [h]) else isFalse (by intro e; cases e; exact h rfl)
  | .ok _, .error _ => isFalse (by intro e; cases e)
  | .error _, .ok _ => isFalse (by intro e; cases e)

/-! ## An example board -/

/-- The entry an example board gives an unclaimed pin. -/
def demoEntry : PinEntry := { enable := false, mode := 0, direction := true, pullup := false }

/-- An example board with eight pins: pins 0 to 5 are digital (input and
output), pins 6 and 7 are digital and analogue inputs.  The opcode values are
those of the EX-IOExpander protocol. -/
def demoConfig : Config where
  EXIOINIT := 0xE0
  EXIORDY := 0xE1
  EXIODPUP := 0xE2
  EXIOVER := 0xE3
  EXIORDAN := 0xE4
  EXIOWRD := 0xE5
  EXIORDD := 0xE6
  EXIOENAN := 0xE7
  EXIOINITA := 0xE8
  EXIOPINS := 0xE9
  EXIOWRAN := 0xEA
  EXIOERR := 0xEF
  MODE_DIGITAL := 0
  DI := 0
  DIGITAL_OUTPUT := 1
  numPins := 8
  numDigitalPins := 8
  numAnaloguePins := 2
  digitalPinBytes := 1
  analoguePinBytes := 4
  pinMap := [⟨2, 3⟩, ⟨3, 3⟩, ⟨4, 3⟩, ⟨5, 3⟩, ⟨6, 3⟩, ⟨7, 3⟩, ⟨14, 7⟩, ⟨15, 7⟩]
  analoguePinMap := [14, 15]
  versionBuffer := [0, 0, 15]
  diag := false
  initialisePins := fun t =>
    { exioPins := t.exioPins.map fun _ => demoEntry,
      digitalPinStates := t.digitalPinStates.map fun _ => 0,
      analoguePinStates := t.analoguePinStates.map fun _ => 0 }
  enableAnalogue := fun t pin =>
    if 6 ≤ pin ∧ pin < 8 then
      (true, { t with exioPins := t.exioPins.set pin ⟨true, 1, true, false⟩ })
    else (false, t)
  writeAnalogue := fun t _ _ _ _ => (false, t)

/-- The example board after power-on: every pin unclaimed. -/
def demoState : State where
  tables :=
    { exioPins := List.replicate 8 demoEntry
      digitalPinStates := [0]
      analoguePinStates := [0, 0, 0, 0] }
  setupComplete := false
  firstVpin := 0
  outboundFlag := 0
  commandBuffer := [0, 0, 0]

/-- The example board with `entry` recorded for pin `pin`. -/
def demoStateWith (pin : Nat) (entry : PinEntry) : State :=
  { demoState with
    tables := { demoState.tables with exioPins := demoState.tables.exioPins.set pin entry } }

/-! ## What the spec says of a claim

The two predicates below follow the words of the spec (section 4.1); they are
compared with what the dispatcher does. -/

/-- The spec's condition for SET_DIGITAL_PULLUP: the pin "has DigitalInput
capability AND (pin unclaimed OR already claimed as digital input)". -/
def specDigitalInputClaimable (c : Config) (pm : PinDefinition) (e : PinEntry) : Prop :=
  bitRead pm.capability c.DI ≠ 0 ∧
    (e.enable = false ∨ (e.enable = true ∧ e.mode = c.MODE_DIGITAL ∧ e.direction = true))

/-- The spec's condition for WRITE_DIGITAL: "DigitalOutput capability AND
(unclaimed OR already a digital output)". -/
def specDigitalOutputClaimable (c : Config) (pm : PinDefinition) (e : PinEntry) : Prop :=
  bitRead pm.capability c.DIGITAL_OUTPUT ≠ 0 ∧
    (e.enable = false ∨ (e.enable = true ∧ e.mode = c.MODE_DIGITAL ∧ e.direction = false))

instance (c : Config) (pm : PinDefinition) (e : PinEntry) :
    Decidable (specDigitalInputClaimable c pm e) := by
  unfold specDigitalInputClaimable; infer_instance

instance (c : Config) (pm : PinDefinition) (e : PinEntry) :
    Decidable (specDigitalOutputClaimable c pm e) := by
  unfold specDigitalOutputClaimable; infer_instance

/-! ## Further notions used by the claims -/

/-- The example board with the diagnostic flag `diag` set. -/
def demoConfigDiag : Config := { demoConfig with diag := true }

/-- The exact frame length the spec's opcode table (section 4.1) gives each
recognised opcode: the opcode byte plus its payload bytes. -/
def exactLength (c : Config) (op : Nat) : Option Nat :=
  if op = c.EXIOINIT then some 4
  else if op = c.EXIOINITA then some 1
  else if op = c.EXIODPUP then some 3
  else if op = c.EXIORDAN then some 1
  else if op = c.EXIOWRD then some 3
  else if op = c.EXIORDD then some 1
  else if op = c.EXIOVER then some 1
  else if op = c.EXIOENAN then some 2
  else if op = c.EXIOWRAN then some 7
  else none

/-- Whether `op` is one of the four opcodes whose case stores a status byte. -/
def statusBearing (c : Config) (op : Nat) : Prop :=
  op = c.EXIODPUP ∨ op = c.EXIOWRD ∨ op = c.EXIOENAN ∨ op = c.EXIOWRAN

instance (c : Config) (op : Nat) : Decidable (statusBearing c op) := by
  unfold statusBearing; infer_instance

/-- The buffers that `requestEvent` hands to `Wire.write` have the sizes it
passes along: the two state arrays hold `analoguePinBytes` and
`digitalPinBytes` bytes, the version three, and the analogue pin map at least
`numAnaloguePins`. -/
def Sized (c : Config) (s : State) : Prop :=
  s.tables.analoguePinStates.length = c.analoguePinBytes ∧
  s.tables.digitalPinStates.length = c.digitalPinBytes ∧
  c.versionBuffer.length = 3 ∧
  c.numAnaloguePins ≤ c.analoguePinMap.length

instance (c : Config) (s : State) : Decidable (Sized c s) := by
  unfold Sized; infer_instance

/-- The pin byte `pin` indexes inside the capability table and the pin table,
and its byte `pin / 8` inside `digitalPinStates`. -/
def pinInTables (c : Config) (s : State) (pin : Nat) : Prop :=
  pin < c.pinMap.length ∧ pin < s.tables.exioPins.length ∧
  pin / 8 < s.tables.digitalPinStates.length

instance (c : Config) (s : State) (pin : Nat) : Decidable (pinInTables c s pin) := by
  unfold pinInTables; infer_instance

/-! ## Bit operations -/

theorem bitRead_eq (x k : Nat) : bitRead x k = if x.testBit k then 1 else 0 := by
  unfold bitRead
  rw [Nat.testBit, Nat.and_comm]
  rcases Nat.mod_two_eq_zero_or_one (x >>> k) with h | h <;> simp [Nat.one_and_eq_mod_two, h]

theorem testBit_mod256 (x i : Nat) : (x % 256).testBit i = (decide (i < 8) && x.testBit i) :=
  Nat.testBit_mod_two_pow x 8 i

theorem testBit_mod32 (x i : Nat) :
    (x % 4294967296).testBit i = (decide (i < 32) && x.testBit i) :=
  Nat.testBit_mod_two_pow x 32 i

theorem testBit_ones32 (i : Nat) : (4294967295 : Nat).testBit i = decide (i < 32) :=
  Nat.testBit_two_pow_sub_one 32 i

theorem bitRead_bitSet (b k : Nat) (hk : k < 8) : bitRead (bitSet b k) k = 1 := by
  rw [bitRead_eq, bitSet, testBit_mod256, Nat.testBit_or, Nat.one_shiftLeft,
    Nat.testBit_two_pow_self]
  simp [hk]

theorem bitRead_bitClear (b k : Nat) (hk : k < 8) : bitRead (bitClear b k) k = 0 := by
  have hk32 : k < 32 := by omega
  rw [bitRead_eq, bitClear, testBit_mod256, Nat.testBit_and, Nat.testBit_xor, testBit_mod32,
    testBit_ones32, Nat.one_shiftLeft, Nat.testBit_two_pow_self]
  simp [hk, hk32]

theorem pinByte_eq (p : Nat) (hp : p < 256) : p / 8 % 256 = p / 8 := by
  omega

theorem pinBit_eq (p : Nat) : (p - (p / 8) * 8) % 256 = p % 8 := by
  omega

theorem word16_eq (hi lo : Nat) (hhi : hi < 256) (hlo : lo < 256) :
    word16 hi lo = hi * 256 + lo := by
  unfold word16
  omega

theorem shift_or_eq (hi lo : Nat) (hlo : lo < 256) : (hi <<< 8) ||| lo = hi * 256 + lo := by
  have h := Nat.mul_add_lt_is_or (show lo < 2 ^ 8 by simpa using hlo) hi
  rw [Nat.shiftLeft_eq]
  have e : (2 : Nat) ^ 8 = 256 := by norm_num
  rw [e] at h ⊢
  rw [Nat.mul_comm hi 256, ← h]

theorem bitRead_bitSet_other (b k j : Nat) (hj : j < 8) (hjk : j ≠ k) :
    bitRead (bitSet b k) j = bitRead b j := by
  rw [bitRead_eq, bitRead_eq, bitSet, testBit_mod256, Nat.testBit_or, Nat.one_shiftLeft,
    Nat.testBit_two_pow]
  simp [hj, Ne.symm hjk]

theorem bitRead_bitClear_other (b k j : Nat) (hj : j < 8) (hjk : j ≠ k) :
    bitRead (bitClear b k) j = bitRead b j := by
  have hj32 : j < 32 := by omega
  rw [bitRead_eq, bitRead_eq, bitClear, testBit_mod256, Nat.testBit_and, Nat.testBit_xor,
    testBit_mod32, testBit_ones32, Nat.one_shiftLeft, Nat.testBit_two_pow]
  simp [hj, hj32, Ne.symm hjk]

/-! ## The case labels of a well-formed configuration -/

theorem wf_nodup {c : Config} (hc : c.WellFormed) :
    (c.EXIOINIT ≠ c.EXIOINITA ∧ c.EXIOINIT ≠ c.EXIODPUP ∧ c.EXIOINIT ≠ c.EXIORDAN ∧
      c.EXIOINIT ≠ c.EXIOWRD ∧ c.EXIOINIT ≠ c.EXIORDD ∧ c.EXIOINIT ≠ c.EXIOVER ∧
      c.EXIOINIT ≠ c.EXIOENAN ∧ c.EXIOINIT ≠ c.EXIOWRAN) ∧
    (c.EXIOINITA ≠ c.EXIODPUP ∧ c.EXIOINITA ≠ c.EXIORDAN ∧ c.EXIOINITA ≠ c.EXIOWRD ∧
      c.EXIOINITA ≠ c.EXIORDD ∧ c.EXIOINITA ≠ c.EXIOVER ∧ c.EXIOINITA ≠ c.EXIOENAN ∧
      c.EXIOINITA ≠ c.EXIOWRAN) ∧
    (c.EXIODPUP ≠ c.EXIORDAN ∧ c.EXIODPUP ≠ c.EXIOWRD ∧ c.EXIODPUP ≠ c.EXIORDD ∧
      c.EXIODPUP ≠ c.EXIOVER ∧ c.EXIODPUP ≠ c.EXIOENAN ∧ c.EXIODPUP ≠ c.EXIOWRAN) ∧
    (c.EXIORDAN ≠ c.EXIOWRD ∧ c.EXIORDAN ≠ c.EXIORDD ∧ c.EXIORDAN ≠ c.EXIOVER ∧
      c.EXIORDAN ≠ c.EXIOENAN ∧ c.EXIORDAN ≠ c.EXIOWRAN) ∧
    (c.EXIOWRD ≠ c.EXIORDD ∧ c.EXIOWRD ≠ c.EXIOVER ∧ c.EXIOWRD ≠ c.EXIOENAN ∧
      c.EXIOWRD ≠ c.EXIOWRAN) ∧
    (c.EXIORDD ≠ c.EXIOVER ∧ c.EXIORDD ≠ c.EXIOENAN ∧ c.EXIORDD ≠ c.EXIOWRAN) ∧
    (c.EXIOVER ≠ c.EXIOENAN ∧ c.EXIOVER ≠ c.EXIOWRAN) ∧ c.EXIOENAN ≠ c.EXIOWRAN := by
  obtain ⟨h, _⟩ := hc
  simpa only [List.nodup_cons, List.mem_cons, List.mem_singleton, not_or, List.not_mem_nil,
    not_false_eq_true, List.nodup_nil, and_true] using h

theorem wf_bytes {c : Config} (hc : c.WellFormed) :
    c.EXIORDY % 256 = c.EXIORDY ∧ c.EXIOERR % 256 = c.EXIOERR ∧
    c.EXIOPINS % 256 = c.EXIOPINS ∧ c.numDigitalPins % 256 = c.numDigitalPins ∧
    c.numAnaloguePins % 256 = c.numAnaloguePins ∧ c.EXIOINIT % 256 = c.EXIOINIT := by
  obtain ⟨_, hb, h1, h2, h3, h4, h5⟩ := hc
  have h0 := hb c.EXIOINIT (by simp)
  exact ⟨Nat.mod_eq_of_lt h1, Nat.mod_eq_of_lt h2, Nat.mod_eq_of_lt h3, Nat.mod_eq_of_lt h4,
    Nat.mod_eq_of_lt h5, Nat.mod_eq_of_lt h0⟩

/-! ## Every case label against the eight others -/

theorem wf_all_EXIOINIT {c : Config} (hc : c.WellFormed) :
    c.EXIOINIT ≠ c.EXIOINITA ∧
    c.EXIOINIT ≠ c.EXIODPUP ∧
    c.EXIOINIT ≠ c.EXIORDAN ∧
    c.EXIOINIT ≠ c.EXIOWRD ∧
    c.EXIOINIT ≠ c.EXIORDD ∧
    c.EXIOINIT ≠ c.EXIOVER ∧
    c.EXIOINIT ≠ c.EXIOENAN ∧
    c.EXIOINIT ≠ c.EXIOWRAN ∧
    c.EXIOINIT < 256 := by
  have h := wf_nodup hc
  have hb := hc.2.1 c.EXIOINIT (by simp)
  refine ⟨?_, ?_, ?_, ?_, ?_, ?_, ?_, ?_, hb⟩ <;> intro e <;> simp [e] at h

theorem wf_all_EXIOINITA {c : Config} (hc : c.WellFormed) :
    c.EXIOINITA ≠ c.EXIOINIT ∧
    c.EXIOINITA ≠ c.EXIODPUP ∧
    c.EXIOINITA ≠ c.EXIORDAN ∧
    c.EXIOINITA ≠ c.EXIOWRD ∧
    c.EXIOINITA ≠ c.EXIORDD ∧
    c.EXIOINITA ≠ c.EXIOVER ∧
    c.EXIOINITA ≠ c.EXIOENAN ∧
    c.EXIOINITA ≠ c.EXIOWRAN ∧
    c.EXIOINITA < 256 := by
  have h := wf_nodup hc
  have hb := hc.2.1 c.EXIOINITA (by simp)
  refine ⟨?_, ?_, ?_, ?_, ?_, ?_, ?_, ?_, hb⟩ <;> intro e <;> simp [e] at h

theorem wf_all_EXIODPUP {c : Config} (hc : c.WellFormed) :
    c.EXIODPUP ≠ c.EXIOINIT ∧
    c.EXIODPUP ≠ c.EXIOINITA ∧
    c.EXIODPUP ≠ c.EXIORDAN ∧
    c.EXIODPUP ≠ c.EXIOWRD ∧
    c.EXIODPUP ≠ c.EXIORDD ∧
    c.EXIODPUP ≠ c.EXIOVER ∧
    c.EXIODPUP ≠ c.EXIOENAN ∧
    c.EXIODPUP ≠ c.EXIOWRAN ∧
    c.EXIODPUP < 256 := by
  have h := wf_nodup hc
  have hb := hc.2.1 c.EXIODPUP (by simp)
  refine ⟨?_, ?_, ?_, ?_, ?_, ?_, ?_, ?_, hb⟩ <;> intro e <;> simp [e] at h

theorem wf_all_EXIORDAN {c : Config} (hc : c.WellFormed) :
    c.EXIORDAN ≠ c.EXIOINIT ∧
    c.EXIORDAN ≠ c.EXIOINITA ∧
    c.EXIORDAN ≠ c.EXIODPUP ∧
    c.EXIORDAN ≠ c.EXIOWRD ∧
    c.EXIORDAN ≠ c.EXIORDD ∧
    c.EXIORDAN ≠ c.EXIOVER ∧
    c.EXIORDAN ≠ c.EXIOENAN ∧
    c.EXIORDAN ≠ c.EXIOWRAN ∧
    c.EXIORDAN < 256 := by
  have h := wf_nodup hc
  have hb := hc.2.1 c.EXIORDAN (by simp)
  refine ⟨?_, ?_, ?_, ?_, ?_, ?_, ?_, ?_, hb⟩ <;> intro e <;> simp [e] at h

theorem wf_all_EXIOWRD {c : Config} (hc : c.WellFormed) :
    c.EXIOWRD ≠ c.EXIOINIT ∧
    c.EXIOWRD ≠ c.EXIOINITA ∧
    c.EXIOWRD ≠ c.EXIODPUP ∧
    c.EXIOWRD ≠ c.EXIORDAN ∧
    c.EXIOWRD ≠ c.EXIORDD ∧
    c.EXIOWRD ≠ c.EXIOVER ∧
    c.EXIOWRD ≠ c.EXIOENAN ∧
    c.EXIOWRD ≠ c.EXIOWRAN ∧
    c.EXIOWRD < 256 := by
  have h := wf_nodup hc
  have hb := hc.2.1 c.EXIOWRD (by simp)
  refine ⟨?_, ?_, ?_, ?_, ?_, ?_, ?_, ?_, hb⟩ <;> intro e <;> simp [e] at h

theorem wf_all_EXIORDD {c : Config} (hc : c.WellFormed) :
    c.EXIORDD ≠ c.EXIOINIT ∧
    c.EXIORDD ≠ c.EXIOINITA ∧
    c.EXIORDD ≠ c.EXIODPUP ∧
    c.EXIORDD ≠ c.EXIORDAN ∧
    c.EXIORDD ≠ c.EXIOWRD ∧
    c.EXIORDD ≠ c.EXIOVER ∧
    c.EXIORDD ≠ c.EXIOENAN ∧
    c.EXIORDD ≠ c.EXIOWRAN ∧
    c.EXIORDD < 256 := by
  have h := wf_nodup hc
  have hb := hc.2.1 c.EXIORDD (by simp)
  refine ⟨?_, ?_, ?_, ?_, ?_, ?_, ?_, ?_, hb⟩ <;> intro e <;> simp [e] at h

theorem wf_all_EXIOVER {c : Config} (hc : c.WellFormed) :
    c.EXIOVER ≠ c.EXIOINIT ∧
    c.EXIOVER ≠ c.EXIOINITA ∧
    c.EXIOVER ≠ c.EXIODPUP ∧
    c.EXIOVER ≠ c.EXIORDAN ∧
    c.EXIOVER ≠ c.EXIOWRD ∧
    c.EXIOVER ≠ c.EXIORDD ∧
    c.EXIOVER ≠ c.EXIOENAN ∧
    c.EXIOVER ≠ c.EXIOWRAN ∧
    c.EXIOVER < 256 := by
  have h := wf_nodup hc
  have hb := hc.2.1 c.EXIOVER (by simp)
  refine ⟨?_, ?_, ?_, ?_, ?_, ?_, ?_, ?_, hb⟩ <;> intro e <;> simp [e] at h

theorem wf_all_EXIOENAN {c : Config} (hc : c.WellFormed) :
    c.EXIOENAN ≠ c.EXIOINIT ∧
    c.EXIOENAN ≠ c.EXIOINITA ∧
    c.EXIOENAN ≠ c.EXIODPUP ∧
    c.EXIOENAN ≠ c.EXIORDAN ∧
    c.EXIOENAN ≠ c.EXIOWRD ∧
    c.EXIOENAN ≠ c.EXIORDD ∧
    c.EXIOENAN ≠ c.EXIOVER ∧
    c.EXIOENAN ≠ c.EXIOWRAN ∧
    c.EXIOENAN < 256 := by
  have h := wf_nodup hc
  have hb := hc.2.1 c.EXIOENAN (by simp)
  refine ⟨?_, ?_, ?_, ?_, ?_, ?_, ?_, ?_, hb⟩ <;> intro e <;> simp [e] at h

theorem wf_all_EXIOWRAN {c : Config} (hc : c.WellFormed) :
    c.EXIOWRAN ≠ c.EXIOINIT ∧
    c.EXIOWRAN ≠ c.EXIOINITA ∧
    c.EXIOWRAN ≠ c.EXIODPUP ∧
    c.EXIOWRAN ≠ c.EXIORDAN ∧
    c.EXIOWRAN ≠ c.EXIOWRD ∧
    c.EXIOWRAN ≠ c.EXIORDD ∧
    c.EXIOWRAN ≠ c.EXIOVER ∧
    c.EXIOWRAN ≠ c.EXIOENAN ∧
    c.EXIOWRAN < 256 := by
  have h := wf_nodup hc
  have hb := hc.2.1 c.EXIOWRAN (by simp)
  refine ⟨?_, ?_, ?_, ?_, ?_, ?_, ?_, ?_, hb⟩ <;> intro e <;> simp [e] at h

/-! ## The dispatcher reaches the case of the opcode -/

theorem dispatch_EXIOINIT {c : Config} (hc : c.WellFormed) (s : State) (op : Nat)
    (rest : List Nat) (hop : op % 256 = c.EXIOINIT) (hlen : rest.length < 255) :
    dispatch c s (op :: rest) = (caseEXIOINIT c s ((op :: rest).map (· % 256))).map plain := by
  have h := wf_all_EXIOINIT hc
  have hl : ¬ 255 ≤ rest.length := by omega
  simp [dispatch, hl, hop, h]

theorem dispatch_EXIOINITA {c : Config} (hc : c.WellFormed) (s : State) (op : Nat)
    (rest : List Nat) (hop : op % 256 = c.EXIOINITA) (hlen : rest.length < 255) :
    dispatch c s (op :: rest) = (caseEXIOINITA c s ((op :: rest).map (· % 256))).map plain := by
  have h := wf_all_EXIOINITA hc
  have hl : ¬ 255 ≤ rest.length := by omega
  simp [dispatch, hl, hop, h]

theorem dispatch_EXIODPUP {c : Config} (hc : c.WellFormed) (s : State) (op : Nat)
    (rest : List Nat) (hop : op % 256 = c.EXIODPUP) (hlen : rest.length < 255) :
    dispatch c s (op :: rest) = (caseEXIODPUP c s ((op :: rest).map (· % 256))).map withStatus := by
  have h := wf_all_EXIODPUP hc
  have hl : ¬ 255 ≤ rest.length := by omega
  simp [dispatch, hl, hop, h]

theorem dispatch_EXIORDAN {c : Config} (hc : c.WellFormed) (s : State) (op : Nat)
    (rest : List Nat) (hop : op % 256 = c.EXIORDAN) (hlen : rest.length < 255) :
    dispatch c s (op :: rest) = (caseEXIORDAN c s ((op :: rest).map (· % 256))).map plain := by
  have h := wf_all_EXIORDAN hc
  have hl : ¬ 255 ≤ rest.length := by omega
  simp [dispatch, hl, hop, h]

theorem dispatch_EXIOWRD {c : Config} (hc : c.WellFormed) (s : State) (op : Nat)
    (rest : List Nat) (hop : op % 256 = c.EXIOWRD) (hlen : rest.length < 255) :
    dispatch c s (op :: rest) = (caseEXIOWRD c s ((op :: rest).map (· % 256))).map withStatus := by
  have h := wf_all_EXIOWRD hc
  have hl : ¬ 255 ≤ rest.length := by omega
  simp [dispatch, hl, hop, h]

theorem dispatch_EXIORDD {c : Config} (hc : c.WellFormed) (s : State) (op : Nat)
    (rest : List Nat) (hop : op % 256 = c.EXIORDD) (hlen : rest.length < 255) :
    dispatch c s (op :: rest) = (caseEXIORDD c s ((op :: rest).map (· % 256))).map plain := by
  have h := wf_all_EXIORDD hc
  have hl : ¬ 255 ≤ rest.length := by omega
  simp [dispatch, hl, hop, h]

theorem dispatch_EXIOVER {c : Config} (hc : c.WellFormed) (s : State) (op : Nat)
    (rest : List Nat) (hop : op % 256 = c.EXIOVER) (hlen : rest.length < 255) :
    dispatch c s (op :: rest) = (caseEXIOVER c s ((op :: rest).map (· % 256))).map plain := by
  have h := wf_all_EXIOVER hc
  have hl : ¬ 255 ≤ rest.length := by omega
  simp [dispatch, hl, hop, h]

theorem dispatch_EXIOENAN {c : Config} (hc : c.WellFormed) (s : State) (op : Nat)
    (rest : List Nat) (hop : op % 256 = c.EXIOENAN) (hlen : rest.length < 255) :
    dispatch c s (op :: rest) = (caseEXIOENAN c s ((op :: rest).map (· % 256))).map withStatus := by
  have h := wf_all_EXIOENAN hc
  have hl : ¬ 255 ≤ rest.length := by omega
  simp [dispatch, hl, hop, h]

theorem dispatch_EXIOWRAN {c : Config} (hc : c.WellFormed) (s : State) (op : Nat)
    (rest : List Nat) (hop : op % 256 = c.EXIOWRAN) (hlen : rest.length < 255) :
    dispatch c s (op :: rest) = (caseEXIOWRAN c s ((op :: rest).map (· % 256))).map withStatus := by
  have h := wf_all_EXIOWRAN hc
  have hl : ¬ 255 ≤ rest.length := by omega
  simp [dispatch, hl, hop, h]

theorem receiveEvent_plain (c : Config) (s : State) (wire : List Nat)
    (r : Except Fault (State × List Call)) (h : dispatch c s wire = r.map plain) :
    receiveEvent c s wire = r := by
  cases r <;> simp [receiveEvent, h, Except.map, plain]

/-- A path that ends with the store of a status does not return: the store
lies outside the array `responseBuffer`. -/
theorem receiveEvent_withStatus (c : Config) (s : State) (wire : List Nat)
    (r : Except Fault (State × List Call × Nat)) (h : dispatch c s wire = r.map withStatus) :
    receiveEvent c s wire = r.bind fun _ => .error .outOfBounds := by
  cases r <;>
    simp [receiveEvent, h, Except.map, Except.bind, withStatus, arrayStore,
      responseBufferDeclared]

theorem receiveEvent_EXIOINIT (c : Config) (s : State) (op : Nat) (rest : List Nat)
    (hop : op % 256 = c.EXIOINIT) (hlen : rest.length < 255) :
    receiveEvent c s (op :: rest) = caseEXIOINIT c s ((op :: rest).map (· % 256)) := by
  apply receiveEvent_plain
  have hl : ¬ 255 ≤ rest.length := by omega
  simp [dispatch, hl, hop]

theorem receiveEvent_EXIOINITA {c : Config} (hc : c.WellFormed) (s : State) (op : Nat)
    (rest : List Nat) (hop : op % 256 = c.EXIOINITA) (hlen : rest.length < 255) :
    receiveEvent c s (op :: rest) = caseEXIOINITA c s ((op :: rest).map (· % 256)) :=
  receiveEvent_plain c s _ _ (dispatch_EXIOINITA hc s op rest hop hlen)

theorem receiveEvent_EXIORDAN {c : Config} (hc : c.WellFormed) (s : State) (op : Nat)
    (rest : List Nat) (hop : op % 256 = c.EXIORDAN) (hlen : rest.length < 255) :
    receiveEvent c s (op :: rest) = caseEXIORDAN c s ((op :: rest).map (· % 256)) :=
  receiveEvent_plain c s _ _ (dispatch_EXIORDAN hc s op rest hop hlen)

theorem receiveEvent_EXIORDD {c : Config} (hc : c.WellFormed) (s : State) (op : Nat)
    (rest : List Nat) (hop : op % 256 = c.EXIORDD) (hlen : rest.length < 255) :
    receiveEvent c s (op :: rest) = caseEXIORDD c s ((op :: rest).map (· % 256)) :=
  receiveEvent_plain c s _ _ (dispatch_EXIORDD hc s op rest hop hlen)

theorem receiveEvent_EXIOVER {c : Config} (hc : c.WellFormed) (s : State) (op : Nat)
    (rest : List Nat) (hop : op % 256 = c.EXIOVER) (hlen : rest.length < 255) :
    receiveEvent c s (op :: rest) = caseEXIOVER c s ((op :: rest).map (· % 256)) :=
  receiveEvent_plain c s _ _ (dispatch_EXIOVER hc s op rest hop hlen)

/-! ## The producer after each selector -/

theorem wireWrite_ok (buf : List Nat) (n : Nat) (h : n ≤ buf.length) :
    wireWrite buf n = .ok (buf.take n) := by
  simp [wireWrite, h]

theorem requestEvent_EXIOINIT (c : Config) (s : State) (hf : s.outboundFlag = c.EXIOINIT) :
    requestEvent c s =
      .ok ({ s with commandBuffer :=
               if s.setupComplete then
                 [c.EXIOPINS % 256, c.numDigitalPins % 256, c.numAnaloguePins % 256]
               else [0, 0, 0] },
           [if s.setupComplete then
              [c.EXIOPINS % 256, c.numDigitalPins % 256, c.numAnaloguePins % 256]
            else [0, 0, 0]]) := by
  simp [requestEvent, hf]

theorem requestEvent_EXIOINITA {c : Config} (hc : c.WellFormed) (s : State)
    (hf : s.outboundFlag = c.EXIOINITA) (hlen : c.numAnaloguePins ≤ c.analoguePinMap.length) :
    requestEvent c s = .ok (s, [c.analoguePinMap.take c.numAnaloguePins]) := by
  have h := wf_all_EXIOINITA hc
  simp [requestEvent, hf, h, wireWrite, hlen, Except.map]

theorem requestEvent_EXIORDAN {c : Config} (hc : c.WellFormed) (s : State)
    (hf : s.outboundFlag = c.EXIORDAN)
    (hlen : s.tables.analoguePinStates.length = c.analoguePinBytes) :
    requestEvent c s = .ok (s, [s.tables.analoguePinStates]) := by
  have h := wf_all_EXIORDAN hc
  simp [requestEvent, hf, h, wireWrite, ← hlen, Except.map]

theorem requestEvent_EXIORDD {c : Config} (hc : c.WellFormed) (s : State)
    (hf : s.outboundFlag = c.EXIORDD)
    (hlen : s.tables.digitalPinStates.length = c.digitalPinBytes) :
    requestEvent c s = .ok (s, [s.tables.digitalPinStates]) := by
  have h := wf_all_EXIORDD hc
  simp [requestEvent, hf, h, wireWrite, ← hlen, Except.map]

theorem requestEvent_EXIOVER {c : Config} (hc : c.WellFormed) (s : State)
    (hf : s.outboundFlag = c.EXIOVER) (hlen : c.versionBuffer.length = 3) :
    requestEvent c s = .ok (s, [c.versionBuffer]) := by
  have h := wf_all_EXIOVER hc
  have h3 : List.take 3 c.versionBuffer = c.versionBuffer := by
    rw [← hlen, List.take_length]
  simp [requestEvent, hf, h, wireWrite, hlen, Except.map, h3]

/-- With the selector at one of the three opcodes whose response is the
status byte, the poll reads one byte of the array `responseBuffer`, which has
none. -/
theorem requestEvent_status_selector {c : Config} (hc : c.WellFormed) (s : State)
    (hf : s.outboundFlag = c.EXIODPUP ∨ s.outboundFlag = c.EXIOENAN ∨
      s.outboundFlag = c.EXIOWRAN) :
    requestEvent c s = .error .outOfBounds := by
  have h1 := wf_all_EXIODPUP hc
  have h2 := wf_all_EXIOENAN hc
  have h3 := wf_all_EXIOWRAN hc
  rcases hf with hf | hf | hf
  · simp [requestEvent, hf, h1, wireWrite, responseBufferDeclared, Except.map]
  · simp [requestEvent, hf, h2, wireWrite, responseBufferDeclared, Except.map]
  · simp [requestEvent, hf, h3, wireWrite, responseBufferDeclared, Except.map]

theorem requestEvent_EXIOWRD {c : Config} (hc : c.WellFormed) (s : State)
    (hf : s.outboundFlag = c.EXIOWRD) :
    requestEvent c s = .ok (s, []) := by
  have h := wf_all_EXIOWRD hc
  simp [requestEvent, hf, h]

theorem requestEvent_other (c : Config) (s : State)
    (h1 : s.outboundFlag ≠ c.EXIOINIT) (h2 : s.outboundFlag ≠ c.EXIOINITA)
    (h3 : s.outboundFlag ≠ c.EXIORDAN) (h4 : s.outboundFlag ≠ c.EXIORDD)
    (h5 : s.outboundFlag ≠ c.EXIOVER) (h6 : s.outboundFlag ≠ c.EXIODPUP)
    (h7 : s.outboundFlag ≠ c.EXIOENAN) (h8 : s.outboundFlag ≠ c.EXIOWRAN) :
    requestEvent c s = .ok (s, []) := by
  simp [requestEvent, h1, h2, h3, h4, h5, h6, h7, h8]

/-! ## The two claim cases on a three-byte frame -/

theorem getElem?_of_lt {α : Type} (l : List α) (i : Nat) (h : i < l.length) :
    ∃ a, l[i]? = some a :=
  ⟨l[i], List.getElem?_eq_getElem h⟩

theorem caseEXIOWRD_accept (c : Config) (s : State) (op p v : Nat) (pm : PinDefinition)
    (e : PinEntry) (b : Nat) (hp : p < 256)
    (hpm : c.pinMap[p]? = some pm) (he : s.tables.exioPins[p]? = some e)
    (hb : s.tables.digitalPinStates[p / 8]? = some b)
    (hspec : specDigitalOutputClaimable c pm e) :
    caseEXIOWRD c s [op, p, v] =
      .ok ({ s with
              outboundFlag := c.EXIOWRD,
              tables := { s.tables with
                exioPins := s.tables.exioPins.set p
                  { e with enable := true, mode := c.MODE_DIGITAL, direction := false },
                digitalPinStates := s.tables.digitalPinStates.set (p / 8)
                  (if v ≠ 0 then bitSet b (p % 8) else bitClear b (p % 8)) } },
           [.pinMode pm.physicalPin .OUTPUT, .digitalWrite pm.physicalPin (v != 0)],
           c.EXIORDY) := by
  obtain ⟨hcap, hfree⟩ := hspec
  have h8 := pinByte_eq p hp
  have hbit := pinBit_eq p
  rcases hfree with hen | ⟨hen, hmode, hdir⟩
  · simp [caseEXIOWRD, hpm, he, hb, hcap, hen, h8, hbit]
  · simp [caseEXIOWRD, hpm, he, hb, hcap, hen, hmode, hdir, h8, hbit]

theorem caseEXIOWRD_reject (c : Config) (s : State) (op p v : Nat) (pm : PinDefinition)
    (e : PinEntry) (hpm : c.pinMap[p]? = some pm) (he : s.tables.exioPins[p]? = some e)
    (hspec : ¬ specDigitalOutputClaimable c pm e) :
    ∃ calls, caseEXIOWRD c s [op, p, v] =
      .ok ({ s with outboundFlag := c.EXIOWRD }, calls, c.EXIOERR) := by
  unfold specDigitalOutputClaimable at hspec
  by_cases hcap : bitRead pm.capability c.DIGITAL_OUTPUT = 0
  · simp [caseEXIOWRD, hpm, hcap]
  · have hfree : ¬ (e.enable = false ∨
        (e.enable = true ∧ e.mode = c.MODE_DIGITAL ∧ e.direction = false)) :=
      fun h => hspec ⟨hcap, h⟩
    cases hen : e.enable <;> cases hdir : e.direction <;>
      simp [hen, hdir] at hfree <;>
      simp [caseEXIOWRD, hpm, he, hcap, hen, hdir, hfree]

theorem caseEXIODPUP_accept (c : Config) (s : State) (op p f : Nat) (pm : PinDefinition)
    (e : PinEntry) (hpm : c.pinMap[p]? = some pm) (he : s.tables.exioPins[p]? = some e)
    (hcap : bitRead pm.capability c.DI ≠ 0)
    (hfree : e.enable = false ∨ e.direction = true) :
    caseEXIODPUP c s [op, p, f] =
      .ok ({ s with
              outboundFlag := c.EXIODPUP,
              tables := { s.tables with
                exioPins := s.tables.exioPins.set p
                  { enable := true, mode := c.MODE_DIGITAL, direction := true,
                    pullup := f != 0 } } },
           [.pinMode pm.physicalPin (if (f != 0) = true then .INPUT_PULLUP else .INPUT)],
           c.EXIORDY) := by
  rcases hfree with hen | hdir
  · simp [caseEXIODPUP, hpm, he, hcap, hen]
  · cases hen : e.enable <;> simp [caseEXIODPUP, hpm, he, hcap, hen, hdir]

theorem caseEXIODPUP_reject (c : Config) (s : State) (op p f : Nat) (pm : PinDefinition)
    (e : PinEntry) (hpm : c.pinMap[p]? = some pm) (he : s.tables.exioPins[p]? = some e)
    (hrej : ¬ (bitRead pm.capability c.DI ≠ 0 ∧ (e.enable = false ∨ e.direction = true))) :
    ∃ calls, caseEXIODPUP c s [op, p, f] =
      .ok ({ s with outboundFlag := c.EXIODPUP }, calls, c.EXIOERR) := by
  by_cases hcap : bitRead pm.capability c.DI = 0
  · simp [caseEXIODPUP, hpm, hcap]
  · have hfree : ¬ (e.enable = false ∨ e.direction = true) := fun h => hrej ⟨hcap, h⟩
    cases hen : e.enable <;> cases hdir : e.direction <;>
      simp [hen, hdir] at hfree
    simp [caseEXIODPUP, hpm, he, hcap, hen, hdir]

/-- Up to the store of the status, a three-byte SET_DIGITAL_PULLUP frame for
a pin inside the tables runs without a fault; the status is ready, or it is
error and the tables are as before. -/
theorem caseEXIODPUP_in_range (c : Config) (s : State) (op p f : Nat)
    (hin : pinInTables c s p) :
    ∃ s1 calls status, caseEXIODPUP c s [op, p, f] = .ok (s1, calls, status) ∧
      s1.outboundFlag = c.EXIODPUP ∧
      (status = c.EXIORDY ∨ (status = c.EXIOERR ∧ s1.tables = s.tables)) := by
  obtain ⟨pm, hpm⟩ := getElem?_of_lt c.pinMap p hin.1
  obtain ⟨e, he⟩ := getElem?_of_lt s.tables.exioPins p hin.2.1
  by_cases hacc : bitRead pm.capability c.DI ≠ 0 ∧ (e.enable = false ∨ e.direction = true)
  · rw [caseEXIODPUP_accept c s op p f pm e hpm he hacc.1 hacc.2]
    exact ⟨_, _, _, rfl, rfl, Or.inl rfl⟩
  · obtain ⟨calls, h⟩ := caseEXIODPUP_reject c s op p f pm e hpm he hacc
    rw [h]
    exact ⟨_, _, _, rfl, rfl, Or.inr ⟨rfl, rfl⟩⟩

/-- Up to the store of the status, a three-byte WRITE_DIGITAL frame for a pin
inside the tables runs without a fault; the status is ready, or it is error
and the tables are as before. -/
theorem caseEXIOWRD_in_range (c : Config) (s : State) (op p v : Nat)
    (hp : p < 256) (hin : pinInTables c s p) :
    ∃ s1 calls status, caseEXIOWRD c s [op, p, v] = .ok (s1, calls, status) ∧
      s1.outboundFlag = c.EXIOWRD ∧
      (status = c.EXIORDY ∨ (status = c.EXIOERR ∧ s1.tables = s.tables)) := by
  obtain ⟨pm, hpm⟩ := getElem?_of_lt c.pinMap p hin.1
  obtain ⟨e, he⟩ := getElem?_of_lt s.tables.exioPins p hin.2.1
  obtain ⟨b, hb⟩ := getElem?_of_lt s.tables.digitalPinStates (p / 8) hin.2.2
  by_cases hspec : specDigitalOutputClaimable c pm e
  · rw [caseEXIOWRD_accept c s op p v pm e b hp hpm he hb hspec]
    exact ⟨_, _, _, rfl, rfl, Or.inl rfl⟩
  · obtain ⟨calls, h⟩ := caseEXIOWRD_reject c s op p v pm e hpm he hspec
    rw [h]
    exact ⟨_, _, _, rfl, rfl, Or.inr ⟨rfl, rfl⟩⟩

/-- Whatever `case EXIOWRD` does, it leaves the selector at `EXIOWRD`. -/
theorem caseEXIOWRD_outboundFlag (c : Config) (s s1 : State) (buffer : List Nat)
    (calls : List Call) (status : Nat)
    (hrun : caseEXIOWRD c s buffer = .ok (s1, calls, status)) :
    s1.outboundFlag = c.EXIOWRD := by
  unfold caseEXIOWRD at hrun
  simp only at hrun
  repeat' split at hrun
  all_goals first
    | (simp only [Except.ok.injEq, Prod.mk.injEq] at hrun
       obtain ⟨rfl, _⟩ := hrun
       rfl)
    | cases hrun

/-- After the dispatcher has taken a WRITE_DIGITAL frame to its last
statement, accepted or rejected, of any length, a poll writes nothing:
`requestEvent` has no case for `EXIOWRD`. -/
theorem poll_after_write_digital (c : Config) (hc : c.WellFormed) (s s1 : State) (op : Nat)
    (rest : List Nat) (calls : List Call) (status : Option Nat) (hop : op % 256 = c.EXIOWRD)
    (hrun : dispatch c s (op :: rest) = .ok (s1, calls, status)) :
    requestEvent c s1 = .ok (s1, []) := by
  have hlen : rest.length < 255 := by
    by_contra h
    have h2 : 255 ≤ rest.length := by omega
    simp [dispatch, h2] at hrun
  rw [dispatch_EXIOWRD hc s op rest hop hlen] at hrun
  cases hr : caseEXIOWRD c s ((op :: rest).map (· % 256)) with
  | error f => rw [hr] at hrun; simp [Except.map] at hrun
  | ok r =>
    obtain ⟨s2, calls2, st2⟩ := r
    rw [hr] at hrun
    simp only [Except.map, withStatus, Except.ok.injEq, Prod.mk.injEq] at hrun
    obtain ⟨rfl, _, _⟩ := hrun
    exact requestEvent_EXIOWRD hc _ (caseEXIOWRD_outboundFlag c s _ _ calls2 st2 hr)

/-- Every frame of at most 255 bytes with one of the four status-bearing
opcodes ends in a fault: each of its paths either indexes a table outside its
bounds or reaches the store into `responseBuffer`, which has no element. -/
theorem status_frame_faults (c : Config) (hc : c.WellFormed) (s : State) (op : Nat)
    (rest : List Nat) (hlen : rest.length < 255) (hop : statusBearing c (op % 256)) :
    receiveEvent c s (op :: rest) = .error .outOfBounds := by
  have key : ∀ r : Except Fault (State × List Call × Nat),
      (∀ f, r = .error f → f = .outOfBounds) →
      dispatch c s (op :: rest) = r.map withStatus →
      receiveEvent c s (op :: rest) = .error .outOfBounds := by
    intro r hf h
    rw [receiveEvent_withStatus c s _ r h]
    cases r with
    | error f => rw [hf f rfl]; rfl
    | ok _ => rfl
  rcases hop with h | h | h | h
  · refine key _ ?_ (dispatch_EXIODPUP hc s op rest h hlen)
    intro f hf
    unfold caseEXIODPUP at hf
    simp only at hf
    repeat' split at hf
    all_goals first
      | (simp only [Except.error.injEq] at hf; exact hf.symm)
      | cases hf
  · refine key _ ?_ (dispatch_EXIOWRD hc s op rest h hlen)
    intro f hf
    unfold caseEXIOWRD at hf
    simp only at hf
    repeat' split at hf
    all_goals first
      | (simp only [Except.error.injEq] at hf; exact hf.symm)
      | cases hf
  · refine key _ ?_ (dispatch_EXIOENAN hc s op rest h hlen)
    intro f hf
    unfold caseEXIOENAN at hf
    simp only at hf
    repeat' split at hf
    all_goals cases hf
  · refine key _ ?_ (dispatch_EXIOWRAN hc s op rest h hlen)
    intro f hf
    unfold caseEXIOWRAN at hf
    simp only at hf
    repeat' split at hf
    all_goals cases hf

/-! ## The producer is repeatable -/

/-- With the buffers of the sizes handed to `Wire.write`, and the selector at
none of the three opcodes that read `responseBuffer`, the poll returns and
assigns nothing but `commandBuffer`. -/
theorem requestEvent_total (c : Config) (s : State) (hs : Sized c s)
    (h1 : s.outboundFlag ≠ c.EXIODPUP) (h2 : s.outboundFlag ≠ c.EXIOENAN)
    (h3 : s.outboundFlag ≠ c.EXIOWRAN) :
    ∃ cb w, requestEvent c s = .ok ({ s with commandBuffer := cb }, w) := by
  obtain ⟨z1, z2, z3, z4⟩ := hs
  unfold requestEvent
  simp only
  split_ifs
  all_goals first
    | exact ⟨_, _, rfl⟩
    | exact ⟨s.commandBuffer, _, by rw [wireWrite_ok _ _ z4]; rfl⟩
    | exact ⟨s.commandBuffer, _, by rw [wireWrite_ok _ _ (le_of_eq z1.symm)]; rfl⟩
    | exact ⟨s.commandBuffer, _, by rw [wireWrite_ok _ _ (le_of_eq z2.symm)]; rfl⟩
    | exact ⟨s.commandBuffer, _, by rw [wireWrite_ok _ _ (le_of_eq z3.symm)]; rfl⟩

/-- A poll that returns is repeated by the next poll: same state, same
writes. -/
theorem requestEvent_again (c : Config) (s s1 : State) (w : List (List Nat))
    (h : requestEvent c s = .ok (s1, w)) : requestEvent c s1 = .ok (s1, w) := by
  unfold requestEvent at h
  simp only at h
  split_ifs at h with a1 a2 a3 a4 a5 a6 a7 a8 a9
  · simp only [Except.ok.injEq, Prod.mk.injEq] at h
    obtain ⟨rfl, rfl⟩ := h
    simp only [requestEvent, if_pos a1, if_pos a2]
  · simp only [Except.ok.injEq, Prod.mk.injEq] at h
    obtain ⟨rfl, rfl⟩ := h
    simp only [requestEvent, if_pos a1, if_neg a2]
  · cases hw : wireWrite _ _ with
    | error f => rw [hw] at h; cases h
    | ok bytes =>
      rw [hw] at h
      simp only [Except.map, Except.ok.injEq, Prod.mk.injEq] at h
      obtain ⟨rfl, rfl⟩ := h
      simp only [requestEvent, if_neg a1, if_pos a3, hw, Except.map]
  · cases hw : wireWrite _ _ with
    | error f => rw [hw] at h; cases h
    | ok bytes =>
      rw [hw] at h
      simp only [Except.map, Except.ok.injEq, Prod.mk.injEq] at h
      obtain ⟨rfl, rfl⟩ := h
      simp only [requestEvent, if_neg a1, if_neg a3, if_pos a4, hw, Except.map]
  · cases hw : wireWrite _ _ with
    | error f => rw [hw] at h; cases h
    | ok bytes =>
      rw [hw] at h
      simp only [Except.map, Except.ok.injEq, Prod.mk.injEq] at h
      obtain ⟨rfl, rfl⟩ := h
      simp only [requestEvent, if_neg a1, if_neg a3, if_neg a4, if_pos a5, hw, Except.map]
  · cases hw : wireWrite _ _ with
    | error f => rw [hw] at h; cases h
    | ok bytes =>
      rw [hw] at h
      simp only [Except.map, Except.ok.injEq, Prod.mk.injEq] at h
      obtain ⟨rfl, rfl⟩ := h
      simp only [requestEvent, if_neg a1, if_neg a3, if_neg a4, if_neg a5, if_pos a6, hw, Except.map]
  · cases hw : wireWrite _ _ with
    | error f => rw [hw] at h; cases h
    | ok bytes =>
      rw [hw] at h
      simp only [Except.map, Except.ok.injEq, Prod.mk.injEq] at h
      obtain ⟨rfl, rfl⟩ := h
      simp only [requestEvent, if_neg a1, if_neg a3, if_neg a4, if_neg a5, if_neg a6, if_pos a7, hw, Except.map]
  · cases hw : wireWrite _ _ with
    | error f => rw [hw] at h; cases h
    | ok bytes =>
      rw [hw] at h
      simp only [Except.map, Except.ok.injEq, Prod.mk.injEq] at h
      obtain ⟨rfl, rfl⟩ := h
      simp only [requestEvent, if_neg a1, if_neg a3, if_neg a4, if_neg a5, if_neg a6, if_neg a7, if_pos a8, hw, Except.map]
  · cases hw : wireWrite _ _ with
    | error f => rw [hw] at h; cases h
    | ok bytes =>
      rw [hw] at h
      simp only [Except.map, Except.ok.injEq, Prod.mk.injEq] at h
      obtain ⟨rfl, rfl⟩ := h
      simp only [requestEvent, if_neg a1, if_neg a3, if_neg a4, if_neg a5, if_neg a6, if_neg a7, if_neg a8, if_pos a9, hw, Except.map]
  · simp only [Except.ok.injEq, Prod.mk.injEq] at h
    obtain ⟨rfl, rfl⟩ := h
    simp only [requestEvent, if_neg a1, if_neg a3, if_neg a4, if_neg a5, if_neg a6, if_neg a7, if_neg a8, if_neg a9]

/-! ## The claims: initialisation and unrecognised opcodes -/

/-- C8: for a four-byte frame `[INIT, n, vpinLo, vpinHi]` with `n` the
board's pin total, the dispatcher sets `setupComplete`, records
`firstVpin = vpinHi * 256 + vpinLo` (equal to `vpinHi << 8 | vpinLo`, below
2^16), arms the INIT response, and the next poll makes one bus write of
exactly three bytes whose second and third bytes are `numDigitalPins` and
`numAnaloguePins`. -/
theorem C8_init_correct_pin_count (c : Config) (hc : c.WellFormed) (s : State)
    (n lo hi : Nat) (hn : n < 256) (hlo : lo < 256) (hhi : hi < 256) (hnum : n = c.numPins) :
    ∃ s1 calls s2 b0,
      receiveEvent c s [c.EXIOINIT, n, lo, hi] = .ok (s1, calls) ∧
      s1.setupComplete = true ∧
      s1.firstVpin = hi * 256 + lo ∧ s1.firstVpin = (hi <<< 8) ||| lo ∧
      s1.firstVpin < 65536 ∧
      s1.outboundFlag = c.EXIOINIT ∧
      requestEvent c s1 = .ok (s2, [[b0, c.numDigitalPins, c.numAnaloguePins]]) := by
  have hby := wf_bytes hc
  have hrun := receiveEvent_EXIOINIT c s c.EXIOINIT [n, lo, hi] hby.2.2.2.2.2 (by simp)
  simp only [List.map_cons, List.map_nil, Nat.mod_eq_of_lt hn, Nat.mod_eq_of_lt hlo,
    Nat.mod_eq_of_lt hhi] at hrun
  have hcase : caseEXIOINIT c s [c.EXIOINIT % 256, n, lo, hi] =
      .ok ({ s with tables := c.initialisePins s.tables, firstVpin := hi * 256 + lo,
                    setupComplete := true, outboundFlag := c.EXIOINIT },
           [.initialisePins,
            .serialPrint "Received correct pin count: ", .serialPrintNum n,
            .serialPrint ", starting at Vpin: ", .serialPrintNum (hi * 256 + lo),
            .displayVpinMap]) := by
    simp [caseEXIOINIT, hnum, word16_eq hi lo hhi hlo]
  rw [hcase] at hrun
  generalize hs1 : State.mk _ _ _ _ _ = s1 at hrun
  have hflag : s1.outboundFlag = c.EXIOINIT := by rw [← hs1]
  have hset : s1.setupComplete = true := by rw [← hs1]
  have hvpin : s1.firstVpin = hi * 256 + lo := by rw [← hs1]
  have hpoll := requestEvent_EXIOINIT c s1 hflag
  rw [hset, hby.2.2.1, hby.2.2.2.1, hby.2.2.2.2.1] at hpoll
  simp only [if_true] at hpoll
  refine ⟨s1, _, _, c.EXIOPINS, hrun, hset, hvpin, ?_, ?_, hflag, hpoll⟩
  · rw [hvpin, shift_or_eq hi lo hlo]
  · rw [hvpin]; omega

/-- Witness of C8 on the example board: eight pins, first Vpin 0x0320. -/
theorem C8_init_correct_pin_count_witness :
    ∃ s1 calls s2 b0,
      receiveEvent demoConfig demoState [demoConfig.EXIOINIT, 8, 0x20, 3] = .ok (s1, calls) ∧
      s1.setupComplete = true ∧
      s1.firstVpin = 3 * 256 + 0x20 ∧ s1.firstVpin = (3 <<< 8) ||| 0x20 ∧
      s1.firstVpin < 65536 ∧
      s1.outboundFlag = demoConfig.EXIOINIT ∧
      requestEvent demoConfig s1 =
        .ok (s2, [[b0, demoConfig.numDigitalPins, demoConfig.numAnaloguePins]]) :=
  C8_init_correct_pin_count demoConfig (by decide) demoState 8 0x20 3 (by decide) (by decide)
    (by decide) (by decide)

/-- C9: for a four-byte frame `[INIT, n, vpinLo, vpinHi]` with `n` different
from the board's pin total, whatever `setupComplete` was, after the dispatch
`setupComplete` is false, the INIT response is armed, and the next poll makes
one bus write of exactly three bytes, all zero. -/
theorem C9_init_wrong_pin_count (c : Config) (hc : c.WellFormed) (s : State)
    (n lo hi : Nat) (hn : n < 256) (hnum : n ≠ c.numPins) :
    ∃ s1 calls s2,
      receiveEvent c s [c.EXIOINIT, n, lo, hi] = .ok (s1, calls) ∧
      s1.setupComplete = false ∧
      s1.outboundFlag = c.EXIOINIT ∧
      requestEvent c s1 = .ok (s2, [[0, 0, 0]]) := by
  have hby := wf_bytes hc
  have hrun := receiveEvent_EXIOINIT c s c.EXIOINIT [n, lo, hi] hby.2.2.2.2.2 (by simp)
  simp only [List.map_cons, List.map_nil, Nat.mod_eq_of_lt hn] at hrun
  have hcase : caseEXIOINIT c s [c.EXIOINIT % 256, n, lo % 256, hi % 256] =
      .ok ({ s with tables := c.initialisePins s.tables,
                    firstVpin := word16 (hi % 256) (lo % 256),
                    setupComplete := false, outboundFlag := c.EXIOINIT },
           [.initialisePins,
            .serialPrint "ERROR: Invalid pin count sent by device driver!: ",
            .serialPrintNum n]) := by
    simp [caseEXIOINIT, hnum]
  rw [hcase] at hrun
  generalize hs1 : State.mk _ _ _ _ _ = s1 at hrun
  have hflag : s1.outboundFlag = c.EXIOINIT := by rw [← hs1]
  have hset : s1.setupComplete = false := by rw [← hs1]
  have hpoll := requestEvent_EXIOINIT c s1 hflag
  rw [hset] at hpoll
  simp only [Bool.false_eq_true, if_false] at hpoll
  exact ⟨s1, _, _, hrun, hset, hflag, hpoll⟩

/-- Witness of C9 on the example board, set up before: nine pins announced. -/
theorem C9_init_wrong_pin_count_witness :
    ∃ s1 calls s2,
      receiveEvent demoConfig { demoState with setupComplete := true }
        [demoConfig.EXIOINIT, 9, 0x20, 3] = .ok (s1, calls) ∧
      s1.setupComplete = false ∧
      s1.outboundFlag = demoConfig.EXIOINIT ∧
      requestEvent demoConfig s1 = .ok (s2, [[0, 0, 0]]) :=
  C9_init_wrong_pin_count demoConfig (by decide) { demoState with setupComplete := true }
    9 0x20 3 (by decide) (by decide)

/-- C12: for a non-empty frame whose first byte is not one of the nine
recognised opcodes, the dispatcher changes nothing (the state after equals
the state before, in every field) and makes no call, so the poll that follows
writes what a poll before the frame would have written. -/
theorem C12_unrecognised_opcode_changes_nothing (c : Config) (s : State) (op : Nat)
    (rest : List Nat) (hlen : rest.length < 255)
    (hun : op % 256 ∉ [c.EXIOINIT, c.EXIOINITA, c.EXIODPUP, c.EXIORDAN, c.EXIOWRD,
      c.EXIORDD, c.EXIOVER, c.EXIOENAN, c.EXIOWRAN]) :
    ∃ s1 calls, receiveEvent c s (op :: rest) = .ok (s1, calls) ∧
      s1 = s ∧ calls = [] ∧ requestEvent c s1 = requestEvent c s := by
  have hl : ¬ 255 ≤ rest.length := by omega
  simp only [List.mem_cons, List.mem_singleton, not_or, List.not_mem_nil, not_false_eq_true,
    and_true] at hun
  obtain ⟨h1, h2, h3, h4, h5, h6, h7, h8, h9⟩ := hun
  refine ⟨s, [], ?_, rfl, rfl, rfl⟩
  simp [receiveEvent, dispatch, hl, h1, h2, h3, h4, h5, h6, h7, h8, h9]

/-- Witness of C12 on the example board: a three-byte frame with opcode 0x42. -/
theorem C12_unrecognised_opcode_changes_nothing_witness :
    ∃ s1 calls, receiveEvent demoConfig demoState (0x42 :: [1, 2]) = .ok (s1, calls) ∧
      s1 = demoState ∧ calls = [] ∧
      requestEvent demoConfig s1 = requestEvent demoConfig demoState :=
  C12_unrecognised_opcode_changes_nothing demoConfig demoState 0x42 [1, 2] (by decide)
    (by decide)

/-- C18, the claim as stated fails.  On the example board, with `firstVpin`
at 0, the frame `[INIT, 9, 0x20, 3]` announces nine pins where the board has
eight; `setupComplete` is false afterwards, and `firstVpin` is 0x0320. -/
theorem C18_failed_init_overwrites_firstVpin :
    demoConfig.numPins = 8 ∧ demoState.firstVpin = 0 ∧
    (receiveEvent demoConfig demoState [0xE0, 9, 0x20, 3]).toOption.map
        (fun r => (r.1.setupComplete, r.1.firstVpin)) = some (false, 0x0320) := by
  decide

/-- C18, amended: every four-byte frame `[INIT, n, vpinLo, vpinHi]` records
`firstVpin = vpinHi * 256 + vpinLo`, whether or not `n` is the pin total of
the board. -/
theorem C18_every_init_records_firstVpin (c : Config) (hc : c.WellFormed) (s : State)
    (n lo hi : Nat) (hn : n < 256) (hlo : lo < 256) (hhi : hi < 256) :
    ∃ s1 calls, receiveEvent c s [c.EXIOINIT, n, lo, hi] = .ok (s1, calls) ∧
      s1.firstVpin = hi * 256 + lo ∧ s1.setupComplete = decide (n = c.numPins) := by
  have hby := wf_bytes hc
  have hrun := receiveEvent_EXIOINIT c s c.EXIOINIT [n, lo, hi] hby.2.2.2.2.2 (by simp)
  simp only [List.map_cons, List.map_nil, Nat.mod_eq_of_lt hn, Nat.mod_eq_of_lt hlo,
    Nat.mod_eq_of_lt hhi] at hrun
  rw [hrun]
  have hex : ∃ r, caseEXIOINIT c s [c.EXIOINIT % 256, n, lo, hi] = .ok r := by
    by_cases hnum : n = c.numPins <;> simp [caseEXIOINIT, hnum]
  obtain ⟨⟨s1, calls⟩, hr⟩ := hex
  refine ⟨s1, calls, hr, ?_⟩
  have hv := word16_eq hi lo hhi hlo
  by_cases hnum : n = c.numPins
  · simp only [caseEXIOINIT, List.length_cons, List.length_nil, List.getD_cons_succ,
      List.getD_cons_zero, if_pos hnum, Except.ok.injEq, Prod.mk.injEq] at hr
    obtain ⟨rfl, _⟩ := hr
    exact ⟨hv, by simp [hnum]⟩
  · simp only [caseEXIOINIT, List.length_cons, List.length_nil, List.getD_cons_succ,
      List.getD_cons_zero, if_neg hnum, Except.ok.injEq, Prod.mk.injEq] at hr
    obtain ⟨rfl, _⟩ := hr
    exact ⟨hv, by simp [hnum]⟩

/-- Witness of C18 on the example board: nine pins announced. -/
theorem C18_every_init_records_firstVpin_witness :
    ∃ s1 calls, receiveEvent demoConfig demoState [demoConfig.EXIOINIT, 9, 0x20, 3] =
        .ok (s1, calls) ∧
      s1.firstVpin = 3 * 256 + 0x20 ∧ s1.setupComplete = decide (9 = demoConfig.numPins) :=
  C18_every_init_records_firstVpin demoConfig (by decide) demoState 9 0x20 3 (by decide)
    (by decide) (by decide)

/-! ## The claims: the response buffer -/

/-- C17, the declared buffer against the accesses.  The array `responseBuffer`
is declared with no element, so the store of a status code at index 0 (here
the ready and the error code of the example board) and the read of one byte
by `Wire.write(responseBuffer, 1)` both lie outside it. -/
theorem C17_response_buffer_has_no_element :
    responseBufferDeclared.length = 0 ∧
    arrayStore responseBufferDeclared 0 demoConfig.EXIORDY = .error .outOfBounds ∧
    arrayStore responseBufferDeclared 0 demoConfig.EXIOERR = .error .outOfBounds ∧
    wireWrite responseBufferDeclared 1 = .error .outOfBounds := by
  decide

/-! ## Frames of the wrong length -/

theorem wrong_length_frame (c : Config) (hc : c.WellFormed) (s : State) (op : Nat)
    (rest : List Nat) (n : Nat) (hlen : rest.length < 255)
    (hn : exactLength c (op % 256) = some n) (hbad : (op :: rest).length ≠ n) :
    ∃ s1 calls status, dispatch c s (op :: rest) = .ok (s1, calls, status) ∧
      s1.tables = s.tables ∧ s1.setupComplete = s.setupComplete ∧
      s1.firstVpin = s.firstVpin ∧
      (c.diag = true ∧ op % 256 ∈ [c.EXIOINIT, c.EXIOINITA, c.EXIODPUP, c.EXIOWRD, c.EXIOWRAN] →
        ∃ text, calls = [.serialPrint text]) ∧
      (c.diag = false ∨ op % 256 ∈ [c.EXIORDAN, c.EXIORDD, c.EXIOVER, c.EXIOENAN] →
        calls = []) ∧
      (statusBearing c (op % 256) →
        status = some c.EXIOERR ∧ s1 = { s with outboundFlag := op % 256 }) ∧
      (¬ statusBearing c (op % 256) →
        status = none ∧ s1 = s ∧ receiveEvent c s (op :: rest) = .ok (s, calls)) := by
  simp only [List.length_cons] at hbad
  unfold exactLength at hn
  split_ifs at hn with a1 a2 a3 a4 a5 a6 a7 a8 a9
  · simp only [Option.some.injEq] at hn
    subst hn
    have hw := wf_all_EXIOINIT hc
    have hd := dispatch_EXIOINIT hc s op rest a1 hlen
    have hre := receiveEvent_plain c s _ _ hd
    have hex : ∃ r, caseEXIOINIT c s ((op :: rest).map (· % 256)) = .ok r := by
      simp [caseEXIOINIT, hbad]
    obtain ⟨⟨s1, calls⟩, hr⟩ := hex
    rw [hr] at hd hre
    refine ⟨s1, calls, none, hd, ?_⟩
    cases hdiag : c.diag <;> simp [caseEXIOINIT, hbad, hdiag] at hr <;>
      obtain ⟨rfl, rfl⟩ := hr <;>
      simp [statusBearing, a1, hw, hre]
  · simp only [Option.some.injEq] at hn
    subst hn
    have hw := wf_all_EXIOINITA hc
    have hd := dispatch_EXIOINITA hc s op rest a2 hlen
    have hre := receiveEvent_plain c s _ _ hd
    have hex : ∃ r, caseEXIOINITA c s ((op :: rest).map (· % 256)) = .ok r := by
      simp [caseEXIOINITA, hbad]
    obtain ⟨⟨s1, calls⟩, hr⟩ := hex
    rw [hr] at hd hre
    refine ⟨s1, calls, none, hd, ?_⟩
    cases hdiag : c.diag <;> simp [caseEXIOINITA, hbad, hdiag] at hr <;>
      obtain ⟨rfl, rfl⟩ := hr <;>
      simp [statusBearing, a2, hw, hre]
  · simp only [Option.some.injEq] at hn
    subst hn
    have hw := wf_all_EXIODPUP hc
    have hd := dispatch_EXIODPUP hc s op rest a3 hlen
    have hex : ∃ r, caseEXIODPUP c s ((op :: rest).map (· % 256)) = .ok r := by
      simp [caseEXIODPUP, hbad]
    obtain ⟨⟨s1, calls, st⟩, hr⟩ := hex
    rw [hr] at hd
    refine ⟨s1, calls, some st, hd, ?_⟩
    cases hdiag : c.diag <;> simp [caseEXIODPUP, hbad, hdiag] at hr <;>
      obtain ⟨rfl, rfl, rfl⟩ := hr <;>
      simp [statusBearing, a3, hw]
  · simp only [Option.some.injEq] at hn
    subst hn
    have hw := wf_all_EXIORDAN hc
    have hd := dispatch_EXIORDAN hc s op rest a4 hlen
    have hre := receiveEvent_plain c s _ _ hd
    have hex : ∃ r, caseEXIORDAN c s ((op :: rest).map (· % 256)) = .ok r := by
      simp [caseEXIORDAN, hbad]
    obtain ⟨⟨s1, calls⟩, hr⟩ := hex
    rw [hr] at hd hre
    refine ⟨s1, calls, none, hd, ?_⟩
    cases hdiag : c.diag <;> simp [caseEXIORDAN, hbad, hdiag] at hr <;>
      obtain ⟨rfl, rfl⟩ := hr <;>
      simp [statusBearing, a4, hw, hre]
  · simp only [Option.some.injEq] at hn
    subst hn
    have hw := wf_all_EXIOWRD hc
    have hd := dispatch_EXIOWRD hc s op rest a5 hlen
    have hex : ∃ r, caseEXIOWRD c s ((op :: rest).map (· % 256)) = .ok r := by
      simp [caseEXIOWRD, hbad]
    obtain ⟨⟨s1, calls, st⟩, hr⟩ := hex
    rw [hr] at hd
    refine ⟨s1, calls, some st, hd, ?_⟩
    cases hdiag : c.diag <;> simp [caseEXIOWRD, hbad, hdiag] at hr <;>
      obtain ⟨rfl, rfl, rfl⟩ := hr <;>
      simp [statusBearing, a5, hw]
  · simp only [Option.some.injEq] at hn
    subst hn
    have hw := wf_all_EXIORDD hc
    have hd := dispatch_EXIORDD hc s op rest a6 hlen
    have hre := receiveEvent_plain c s _ _ hd
    have hex : ∃ r, caseEXIORDD c s ((op :: rest).map (· % 256)) = .ok r := by
      simp [caseEXIORDD, hbad]
    obtain ⟨⟨s1, calls⟩, hr⟩ := hex
    rw [hr] at hd hre
    refine ⟨s1, calls, none, hd, ?_⟩
    cases hdiag : c.diag <;> simp [caseEXIORDD, hbad, hdiag] at hr <;>
      obtain ⟨rfl, rfl⟩ := hr <;>
      simp [statusBearing, a6, hw, hre]
  · simp only [Option.some.injEq] at hn
    subst hn
    have hw := wf_all_EXIOVER hc
    have hd := dispatch_EXIOVER hc s op rest a7 hlen
    have hre := receiveEvent_plain c s _ _ hd
    have hex : ∃ r, caseEXIOVER c s ((op :: rest).map (· % 256)) = .ok r := by
      simp [caseEXIOVER, hbad]
    obtain ⟨⟨s1, calls⟩, hr⟩ := hex
    rw [hr] at hd hre
    refine ⟨s1, calls, none, hd, ?_⟩
    cases hdiag : c.diag <;> simp [caseEXIOVER, hbad, hdiag] at hr <;>
      obtain ⟨rfl, rfl⟩ := hr <;>
      simp [statusBearing, a7, hw, hre]
  · simp only [Option.some.injEq] at hn
    subst hn
    have hw := wf_all_EXIOENAN hc
    have hd := dispatch_EXIOENAN hc s op rest a8 hlen
    have hex : ∃ r, caseEXIOENAN c s ((op :: rest).map (· % 256)) = .ok r := by
      simp [caseEXIOENAN, hbad]
    obtain ⟨⟨s1, calls, st⟩, hr⟩ := hex
    rw [hr] at hd
    refine ⟨s1, calls, some st, hd, ?_⟩
    cases hdiag : c.diag <;> simp [caseEXIOENAN, hbad, hdiag] at hr <;>
      obtain ⟨rfl, rfl, rfl⟩ := hr <;>
      simp [statusBearing, a8, hw]
  · simp only [Option.some.injEq] at hn
    subst hn
    have hw := wf_all_EXIOWRAN hc
    have hd := dispatch_EXIOWRAN hc s op rest a9 hlen
    have hex : ∃ r, caseEXIOWRAN c s ((op :: rest).map (· % 256)) = .ok r := by
      simp [caseEXIOWRAN, hbad]
    obtain ⟨⟨s1, calls, st⟩, hr⟩ := hex
    rw [hr] at hd
    refine ⟨s1, calls, some st, hd, ?_⟩
    cases hdiag : c.diag <;> simp [caseEXIOWRAN, hbad, hdiag] at hr <;>
      obtain ⟨rfl, rfl, rfl⟩ := hr <;>
      simp [statusBearing, a9, hw]


/-- C11, the claim as stated fails with the diagnostic flag set.  On the
example board with `diag` set, an INIT frame of length 1 (exact length 4)
makes one call, a line on the diagnostic serial channel, so the list of calls
is not empty; and the WRITE_DIGITAL frame of length 2 reaches its last
statement, the store of the error code, having made one such call too. -/
theorem C11_wrong_length_calls_diagnostic_sink :
    exactLength demoConfigDiag 0xE0 = some 4 ∧
    receiveEvent demoConfigDiag demoState [0xE0] =
      .ok (demoState, [.serialPrint "EXIOINIT received with incorrect data"]) ∧
    (¬ ∃ s1, receiveEvent demoConfigDiag demoState [0xE0] = .ok (s1, [])) ∧
    exactLength demoConfigDiag 0xE5 = some 3 ∧
    dispatch demoConfigDiag demoState [0xE5, 3] =
      .ok ({ demoState with outboundFlag := 0xE5 },
           [.serialPrint "EXIOWRD received with incorrect number of bytes"],
           some demoConfigDiag.EXIOERR) := by
  have h : receiveEvent demoConfigDiag demoState [0xE0] =
      .ok (demoState, [.serialPrint "EXIOINIT received with incorrect data"]) := by
    decide
  refine ⟨by decide, h, ?_, by decide, by decide⟩
  rintro ⟨s1, h1⟩
  rw [h] at h1
  simp at h1

/-- C11, amended.  The empty frame changes nothing and makes no call.  A frame
of at most 255 bytes with a recognised opcode and a byte count other than the
exact length of the opcode is taken to the last statement of its path with no
pin entry, no byte of the state arrays, neither `setupComplete` nor
`firstVpin` changed, and with no call but to the diagnostic serial channel:
exactly one line when `diag` is set and the opcode is INIT, INIT_ANALOG_MAP,
SET_DIGITAL_PULLUP, WRITE_DIGITAL or WRITE_ANALOG_OUTPUT, no call otherwise.
For the five opcodes without a status the dispatcher then returns with the
state unchanged; for SET_DIGITAL_PULLUP, WRITE_DIGITAL, ENABLE_ANALOG_INPUT
and WRITE_ANALOG_OUTPUT it has set the selector to the opcode, and its last
statement is the store of the error code into `responseBuffer[0]`. -/
theorem C11_wrong_length_no_state_change (c : Config) (hc : c.WellFormed) (s : State) :
    receiveEvent c s [] = .ok (s, []) ∧
    ∀ (op : Nat) (rest : List Nat) (n : Nat), rest.length < 255 →
      exactLength c (op % 256) = some n → (op :: rest).length ≠ n →
      ∃ s1 calls status, dispatch c s (op :: rest) = .ok (s1, calls, status) ∧
        s1.tables = s.tables ∧ s1.setupComplete = s.setupComplete ∧
        s1.firstVpin = s.firstVpin ∧
        (c.diag = true ∧
            op % 256 ∈ [c.EXIOINIT, c.EXIOINITA, c.EXIODPUP, c.EXIOWRD, c.EXIOWRAN] →
          ∃ text, calls = [.serialPrint text]) ∧
        (c.diag = false ∨ op % 256 ∈ [c.EXIORDAN, c.EXIORDD, c.EXIOVER, c.EXIOENAN] →
          calls = []) ∧
        (statusBearing c (op % 256) →
          status = some c.EXIOERR ∧ s1 = { s with outboundFlag := op % 256 }) ∧
        (¬ statusBearing c (op % 256) →
          status = none ∧ s1 = s ∧ receiveEvent c s (op :: rest) = .ok (s, calls)) := by
  refine ⟨by simp [receiveEvent, dispatch], ?_⟩
  intro op rest n hlen hn hbad
  exact wrong_length_frame c hc s op rest n hlen hn hbad

/-- Witness of C11 on the example board with `diag` set: the WRITE_DIGITAL
frame of length 2. -/
theorem C11_wrong_length_no_state_change_witness :
    ∃ s1 calls status, dispatch demoConfigDiag demoState (0xE5 :: [3]) =
        .ok (s1, calls, status) ∧
      s1.tables = demoState.tables ∧ s1.setupComplete = demoState.setupComplete ∧
      s1.firstVpin = demoState.firstVpin ∧
      (demoConfigDiag.diag = true ∧
          0xE5 % 256 ∈ [demoConfigDiag.EXIOINIT, demoConfigDiag.EXIOINITA,
            demoConfigDiag.EXIODPUP, demoConfigDiag.EXIOWRD, demoConfigDiag.EXIOWRAN] →
        ∃ text, calls = [.serialPrint text]) ∧
      (demoConfigDiag.diag = false ∨
          0xE5 % 256 ∈ [demoConfigDiag.EXIORDAN, demoConfigDiag.EXIORDD,
            demoConfigDiag.EXIOVER, demoConfigDiag.EXIOENAN] →
        calls = []) ∧
      (statusBearing demoConfigDiag (0xE5 % 256) →
        status = some demoConfigDiag.EXIOERR ∧
        s1 = { demoState with outboundFlag := 0xE5 % 256 }) ∧
      (¬ statusBearing demoConfigDiag (0xE5 % 256) →
        status = none ∧ s1 = demoState ∧
        receiveEvent demoConfigDiag demoState (0xE5 :: [3]) = .ok (demoState, calls)) :=
  (C11_wrong_length_no_state_change demoConfigDiag (by decide) demoState).2 0xE5 [3] 3
    (by decide) (by decide) (by decide)

/-! ## The claims: pins outside the tables -/

/-- C16, the claim as stated fails.  The example board has eight entries in
the capability table and in the pin table; the three-byte frames
`[SET_DIGITAL_PULLUP, 8, 0]` and `[WRITE_DIGITAL, 8, 1]` index the capability
table at 8, outside it, before any status is chosen. -/
theorem C16_out_of_range_pin_is_indexed :
    demoConfig.pinMap.length = 8 ∧ demoState.tables.exioPins.length = 8 ∧
    dispatch demoConfig demoState [0xE2, 8, 0] = .error .outOfBounds ∧
    dispatch demoConfig demoState [0xE5, 8, 1] = .error .outOfBounds ∧
    receiveEvent demoConfig demoState [0xE2, 8, 0] = .error .outOfBounds ∧
    receiveEvent demoConfig demoState [0xE5, 8, 1] = .error .outOfBounds := by
  decide

/-- C16, amended: a three-byte SET_DIGITAL_PULLUP or WRITE_DIGITAL frame whose
pin byte lies inside the capability table and the pin table (and whose byte
`pin / 8` lies inside `digitalPinStates`) makes no out-of-range access to
these three tables: the dispatcher reaches its last statement, the store of
the ready or of the error code, and where it is the error code the tables are
as before.  The pin byte is not checked against the size of the tables: with
a pin byte at or beyond the end of the capability table that table is
indexed outside its bounds. -/
theorem C16_in_range_pin_no_fault (c : Config) (hc : c.WellFormed) (s : State)
    (op p v : Nat) (hp : p < 256) (hv : v < 256)
    (hop : op = c.EXIODPUP ∨ op = c.EXIOWRD) :
    (pinInTables c s p →
      ∃ s1 calls status, dispatch c s [op, p, v] = .ok (s1, calls, some status) ∧
        (status = c.EXIORDY ∨ (status = c.EXIOERR ∧ s1.tables = s.tables))) ∧
    (c.pinMap.length ≤ p → dispatch c s [op, p, v] = .error .outOfBounds) := by
  have hd := wf_all_EXIODPUP hc
  have hw := wf_all_EXIOWRD hc
  have hnone : c.pinMap.length ≤ p → c.pinMap[p]? = none := fun h => List.getElem?_eq_none h
  rcases hop with rfl | rfl
  · have hrun := dispatch_EXIODPUP hc s c.EXIODPUP [p, v]
      (Nat.mod_eq_of_lt hd.2.2.2.2.2.2.2.2) (by simp)
    simp only [List.map_cons, List.map_nil, Nat.mod_eq_of_lt hp, Nat.mod_eq_of_lt hv] at hrun
    rw [hrun]
    constructor
    · intro hin
      obtain ⟨s1, calls, status, h, _, hst⟩ := caseEXIODPUP_in_range c s _ p v hin
      exact ⟨s1, calls, status, by rw [h]; rfl, hst⟩
    · intro hout
      simp [caseEXIODPUP, hnone hout, Except.map]
  · have hrun := dispatch_EXIOWRD hc s c.EXIOWRD [p, v]
      (Nat.mod_eq_of_lt hw.2.2.2.2.2.2.2.2) (by simp)
    simp only [List.map_cons, List.map_nil, Nat.mod_eq_of_lt hp, Nat.mod_eq_of_lt hv] at hrun
    rw [hrun]
    constructor
    · intro hin
      obtain ⟨s1, calls, status, h, _, hst⟩ := caseEXIOWRD_in_range c s _ p v hp hin
      exact ⟨s1, calls, status, by rw [h]; rfl, hst⟩
    · intro hout
      simp [caseEXIOWRD, hnone hout, Except.map]

/-- Witness of C16 on the example board: pin 7 is inside the tables, and the
SET_DIGITAL_PULLUP frame for it reaches the store of its status. -/
theorem C16_in_range_pin_no_fault_witness :
    ∃ s1 calls status, dispatch demoConfig demoState [demoConfig.EXIODPUP, 7, 0] =
        .ok (s1, calls, some status) ∧
      (status = demoConfig.EXIORDY ∨
        (status = demoConfig.EXIOERR ∧ s1.tables = demoState.tables)) :=
  (C16_in_range_pin_no_fault demoConfig (by decide) demoState demoConfig.EXIODPUP 7 0
    (by decide) (by decide) (Or.inl rfl)).1 (by decide)

/-! ## The claims: the pin conflicts of SET_DIGITAL_PULLUP -/

/-- C2, the code at the failing input.  On the example board pin 6 is held as
an analogue input (enabled, mode not Digital, direction 1), so it is neither
unclaimed nor a digital input; the frame `[SET_DIGITAL_PULLUP, 6, 0]` is
nevertheless accepted: the pin is recorded as a digital input, `pinMode` is
called, and the status that the last statement stores is ready. -/
theorem C2_set_pullup_accepts_analogue_input :
    ¬ specDigitalInputClaimable demoConfig ⟨14, 7⟩ ⟨true, 1, true, false⟩ ∧
    demoConfig.pinMap[6]? = some ⟨14, 7⟩ ∧
    (demoStateWith 6 ⟨true, 1, true, false⟩).tables.exioPins[6]? =
      some ⟨true, 1, true, false⟩ ∧
    dispatch demoConfig (demoStateWith 6 ⟨true, 1, true, false⟩) [0xE2, 6, 0] =
      .ok ({ demoStateWith 6 ⟨true, 0, true, false⟩ with
              outboundFlag := demoConfig.EXIODPUP },
           [.pinMode 14 .INPUT], some demoConfig.EXIORDY) := by
  decide

/-- C4, the code at the failing input.  On the example board pin 7 is enabled
and held as analogue (mode 1) with direction 1; the frame
`[SET_DIGITAL_PULLUP, 7, 1]` chooses the ready status, not the error one, and
the mode of the pin changes from 1 to `MODE_DIGITAL`. -/
theorem C4_set_pullup_reconfigures_analogue_pin :
    ((demoStateWith 7 ⟨true, 1, true, false⟩).tables.exioPins[7]?).map (fun e => e.mode) =
      some 1 ∧
    (dispatch demoConfig (demoStateWith 7 ⟨true, 1, true, false⟩) [0xE2, 7, 1]).toOption.map
        (fun r => (r.2.2, (r.1.tables.exioPins[7]?).map fun e => e.mode)) =
      some (some demoConfig.EXIORDY, some demoConfig.MODE_DIGITAL) ∧
    demoConfig.MODE_DIGITAL ≠ 1 ∧ demoConfig.EXIORDY ≠ demoConfig.EXIOERR := by
  decide

/-! ## The claims: the status byte and the array that should hold it -/

/-- C10, the code at the failing input.  On the example board the frame
`[WRITE_DIGITAL, 3, 1]` is accepted (status ready) when pin 3 is unclaimed
and rejected (status error) when pin 3 is a digital input; in both cases a
poll in the state the dispatcher has reached makes no bus write at all. -/
theorem C10_poll_after_write_digital_writes_nothing :
    ((dispatch demoConfig demoState [0xE5, 3, 1]).bind fun r =>
        (requestEvent demoConfig r.1).map fun q => (r.2.2, q.2)) =
      .ok (some demoConfig.EXIORDY, []) ∧
    ((dispatch demoConfig (demoStateWith 3 ⟨true, 0, true, false⟩) [0xE5, 3, 1]).bind fun r =>
        (requestEvent demoConfig r.1).map fun q => (r.2.2, q.2)) =
      .ok (some demoConfig.EXIOERR, []) := by
  decide

/-- C1, the code at the failing input.  On the example board the frame
`[WRITE_DIGITAL, 3, 1]` sets bit 3 of byte 0 of `digitalPinStates` and reaches
its last statement with the ready status, and from the state reached there
`[READ_DIGITAL_INPUTS]` and a poll write the bitmap `[8]`; with state 0 the
bit is cleared.  But the last statement of the WRITE_DIGITAL path, the store
`responseBuffer[0] = EXIORDY` of line 156, lies outside the array, so the
first dispatch of the sequence does not return. -/
theorem C1_write_digital_faults_at_status_store :
    (dispatch demoConfig demoState [0xE5, 3, 1]).toOption.map
        (fun r => (r.1.tables.digitalPinStates, r.2.2)) =
      some ([8], some demoConfig.EXIORDY) ∧
    ((dispatch demoConfig demoState [0xE5, 3, 1]).bind fun r =>
        (receiveEvent demoConfig r.1 [0xE6]).bind fun r2 =>
          (requestEvent demoConfig r2.1).map fun q => q.2) = .ok [[8]] ∧
    ((dispatch demoConfig demoState [0xE5, 3, 1]).bind fun r =>
        (dispatch demoConfig r.1 [0xE5, 3, 0]).map fun r2 =>
          (r2.1.tables.digitalPinStates, r2.2.2)) =
      .ok ([0], some demoConfig.EXIORDY) ∧
    receiveEvent demoConfig demoState [0xE5, 3, 1] = .error .outOfBounds ∧
    receiveEvent demoConfig demoState [0xE5, 3, 0] = .error .outOfBounds := by
  decide

/-- C3, the code at the failing input.  On the example board the frame
`[WRITE_DIGITAL, 3, 1]` reaches its last statement with the ready status and
pin 3 recorded as enabled, Digital, Output when pin 3 is unclaimed, and with
the error status and the direction of pin 3 still Input when pin 3 is a
digital input.  On both paths that last statement, the store into
`responseBuffer[0]` (lines 156 and 142), lies outside the array. -/
theorem C3_write_digital_faults_at_status_store :
    (dispatch demoConfig demoState [0xE5, 3, 1]).toOption.map
        (fun r => (r.2.2, r.1.tables.exioPins[3]?)) =
      some (some demoConfig.EXIORDY, some ⟨true, demoConfig.MODE_DIGITAL, false, false⟩) ∧
    (dispatch demoConfig (demoStateWith 3 ⟨true, 0, true, false⟩) [0xE5, 3, 1]).toOption.map
        (fun r => (r.2.2, r.1.tables.exioPins[3]?)) =
      some (some demoConfig.EXIOERR, some ⟨true, 0, true, false⟩) ∧
    receiveEvent demoConfig demoState [0xE5, 3, 1] = .error .outOfBounds ∧
    receiveEvent demoConfig (demoStateWith 3 ⟨true, 0, true, false⟩) [0xE5, 3, 1] =
      .error .outOfBounds := by
  decide

/-- C5, the code at the failing input.  On the example board, with pin 3 a
digital output, the frame `[SET_DIGITAL_PULLUP, 3, 1]` is rejected for the
conflict, and the WRITE_DIGITAL frame of length 2 for its length: both reach
their last statement with the tables as before and the error status.  That
last statement, the store `responseBuffer[0] = EXIOERR` (lines 116 and 170),
writes outside the array. -/
theorem C5_rejection_faults_at_status_store :
    (dispatch demoConfig (demoStateWith 3 ⟨true, 0, false, false⟩) [0xE2, 3, 1]).toOption.map
        (fun r => (r.2.2, r.1.tables)) =
      some (some demoConfig.EXIOERR, (demoStateWith 3 ⟨true, 0, false, false⟩).tables) ∧
    (dispatch demoConfig demoState [0xE5, 3]).toOption.map (fun r => (r.2.2, r.1.tables)) =
      some (some demoConfig.EXIOERR, demoState.tables) ∧
    receiveEvent demoConfig (demoStateWith 3 ⟨true, 0, false, false⟩) [0xE2, 3, 1] =
      .error .outOfBounds ∧
    receiveEvent demoConfig demoState [0xE5, 3] = .error .outOfBounds := by
  decide

/-- C6, the code at the failing input.  On the example board the frame
`[SET_DIGITAL_PULLUP, 5, 1]` records pin 5 as enabled, Digital, Input with
pullup and reaches its last statement with the ready status.  That statement,
the store of line 111, lies outside the array `responseBuffer`, and the poll
that follows (line 257) reads one byte of the same array. -/
theorem C6_set_pullup_faults_at_status_store :
    (dispatch demoConfig demoState [0xE2, 5, 1]).toOption.map
        (fun r => (r.2.2, r.1.outboundFlag, r.1.tables.exioPins[5]?)) =
      some (some demoConfig.EXIORDY, demoConfig.EXIODPUP,
        some ⟨true, demoConfig.MODE_DIGITAL, true, true⟩) ∧
    receiveEvent demoConfig demoState [0xE2, 5, 1] = .error .outOfBounds ∧
    ((dispatch demoConfig demoState [0xE2, 5, 1]).bind fun r =>
        requestEvent demoConfig r.1) = .error .outOfBounds := by
  decide

/-- C7, the code at the failing input.  On the example board the frame
`[SET_DIGITAL_PULLUP, 5, 1]`, taken twice to its last statement, gives the
ready status and the same state both times.  But neither dispatch returns:
the store of the status (line 111) lies outside the array `responseBuffer`. -/
theorem C7_set_pullup_faults_at_status_store :
    ((dispatch demoConfig demoState [0xE2, 5, 1]).bind fun r =>
        (dispatch demoConfig r.1 [0xE2, 5, 1]).map fun r2 =>
          (r.2.2, r2.2.2, decide (r2.1 = r.1))) =
      .ok (some demoConfig.EXIORDY, some demoConfig.EXIORDY, true) ∧
    receiveEvent demoConfig demoState [0xE2, 5, 1] = .error .outOfBounds ∧
    (demoStateWith 5 ⟨true, 0, true, true⟩).tables.exioPins[5]? =
      some ⟨true, demoConfig.MODE_DIGITAL, true, true⟩ ∧
    receiveEvent demoConfig (demoStateWith 5 ⟨true, 0, true, true⟩) [0xE2, 5, 1] =
      .error .outOfBounds := by
  decide

/-- C13, the code at the failing input.  On the example board with the
selector at SET_DIGITAL_PULLUP or at WRITE_ANALOG_OUTPUT, the poll hands
`Wire.write` one byte of the array `responseBuffer` (lines 257 and 263), which
has none: the read lies outside the array. -/
theorem C13_poll_reads_outside_response_buffer :
    requestEvent demoConfig { demoState with outboundFlag := demoConfig.EXIODPUP } =
      .error .outOfBounds ∧
    requestEvent demoConfig { demoState with outboundFlag := demoConfig.EXIOWRAN } =
      .error .outOfBounds := by
  decide

/-- C14, the code at the failing input.  For each of the three selectors
whose response is the status byte, the poll on the example board reads one
byte of the array `responseBuffer`, outside it; with the selector at
WRITE_DIGITAL or at a value that is no opcode it writes nothing, and with
GET_VERSION it writes the three version bytes. -/
theorem C14_status_selectors_read_outside_response_buffer :
    [demoConfig.EXIODPUP, demoConfig.EXIOENAN, demoConfig.EXIOWRAN].map
        (fun flag => requestEvent demoConfig { demoState with outboundFlag := flag }) =
      [.error .outOfBounds, .error .outOfBounds, .error .outOfBounds] ∧
    [demoConfig.EXIOWRD, 0, demoConfig.EXIOVER].map
        (fun flag =>
          (requestEvent demoConfig { demoState with outboundFlag := flag }).map
            fun q => q.2) =
      [.ok [], .ok [], .ok [[0, 0, 15]]] := by
  decide

/-- C15, the code at the failing input.  On the example board the frame
`[WRITE_ANALOG_OUTPUT, 6, 1, 2, 0, 3, 4]` calls `writeAnalogue` once with
`(6, 0x0201, 0, 0x0403)` and `[ENABLE_ANALOG_INPUT, 6]` calls `enableAnalogue`
once with 6; the status follows the result of the call (error for the first,
ready for the second).  The last statement of both paths, the store of that
status (lines 208 and 189), lies outside the array `responseBuffer`, and so
does the read of the poll (lines 263 and 260). -/
theorem C15_analogue_commands_fault_at_status_store :
    (dispatch demoConfig demoState [0xEA, 6, 1, 2, 0, 3, 4]).toOption.map
        (fun r => (r.2.1, r.2.2)) =
      some ([.writeAnalogue 6 0x0201 0 0x0403], some demoConfig.EXIOERR) ∧
    (dispatch demoConfig demoState [0xE7, 6]).toOption.map (fun r => (r.2.1, r.2.2)) =
      some ([.enableAnalogue 6], some demoConfig.EXIORDY) ∧
    receiveEvent demoConfig demoState [0xEA, 6, 1, 2, 0, 3, 4] = .error .outOfBounds ∧
    receiveEvent demoConfig demoState [0xE7, 6] = .error .outOfBounds ∧
    ((dispatch demoConfig demoState [0xEA, 6, 1, 2, 0, 3, 4]).bind fun r =>
        requestEvent demoConfig r.1) = .error .outOfBounds ∧
    ((dispatch demoConfig demoState [0xE7, 6]).bind fun r =>
        requestEvent demoConfig r.1) = .error .outOfBounds := by
  decide

/-- C19, the code at the failing input.  On the example board with every bit
of byte 0 of `digitalPinStates` set, the frame `[WRITE_DIGITAL, 3, 0]` clears
bit 3 alone (0xFF becomes 0xF7) and changes the entry of pin 3 alone, leaving
`setupComplete` and `firstVpin`; then its last statement, the store
`responseBuffer[0] = EXIORDY` of line 156, writes outside the array
`responseBuffer`, so more than the pin is touched. -/
theorem C19_accepted_write_faults_at_status_store :
    (dispatch demoConfig
        { demoState with tables := { demoState.tables with digitalPinStates := [0xFF] } }
        [0xE5, 3, 0]).toOption.map
        (fun r => (r.1.tables.digitalPinStates, r.1.tables.exioPins, r.1.setupComplete,
          r.1.firstVpin, r.2.2)) =
      some ([0xF7], demoState.tables.exioPins.set 3 ⟨true, 0, false, false⟩,
        demoState.setupComplete, demoState.firstVpin, some demoConfig.EXIORDY) ∧
    receiveEvent demoConfig
        { demoState with tables := { demoState.tables with digitalPinStates := [0xFF] } }
        [0xE5, 3, 0] = .error .outOfBounds := by
  decide

/-- C20, the code at the failing input.  On the example board, frames of each
of the four status-bearing opcodes, of the exact length and of a wrong one,
reach their last statement with the selector at the opcode and the ready or
the error code to store; the store lies outside the array `responseBuffer`
every time, so no path writes a status byte that a poll could read. -/
theorem C20_every_status_store_is_out_of_bounds :
    [[0xE2, 5, 1], [0xE2], [0xE5, 3, 1], [0xE5, 3], [0xE7, 6], [0xE7], [0xEA, 6, 1, 2, 0, 3, 4],
        [0xEA]].map
        (fun frame => (dispatch demoConfig demoState frame).toOption.map
          fun r => (r.1.outboundFlag, r.2.2)) =
      [some (0xE2, some demoConfig.EXIORDY), some (0xE2, some demoConfig.EXIOERR),
        some (0xE5, some demoConfig.EXIORDY), some (0xE5, some demoConfig.EXIOERR),
        some (0xE7, some demoConfig.EXIORDY), some (0xE7, some demoConfig.EXIOERR),
        some (0xEA, some demoConfig.EXIOERR), some (0xEA, some demoConfig.EXIOERR)] ∧
    [[0xE2, 5, 1], [0xE2], [0xE5, 3, 1], [0xE5, 3], [0xE7, 6], [0xE7], [0xEA, 6, 1, 2, 0, 3, 4],
        [0xEA]].map
        (fun frame => receiveEvent demoConfig demoState frame) =
      List.replicate 8 (.error .outOfBounds) := by
  decide

end EXIOExpander
